import Mathlib

/-!
Verification of the conversation/session engine of the expense-tracker bot
(package bot and package models of the repository).

The development is a shallow embedding of the Go source:

* internal/models (user_state.go, expense.go): the Step enumeration, the
  Expense record, the UserState record, NewUserState, UpdateActivity.
* internal/bot (handler.go, helpers.go and the main bot file): the update
  loop entry points handleMessage / handleCallbackQuery / HandleUpdate, the
  dialog state machine handleState, the command dispatcher handleCommand,
  the search handlers, the helpers parseFloatOrReply / checkExpenseOwnership /
  prepareExpenseSelection, and the eviction sweep cleanupExpiredStates.

Modelling conventions:

* Machine integers (int64 ids) are Lean Int; float64 amounts are Lean Rat
  (the engine only stores and copies them, it never does float arithmetic
  on the paths verified here); time.Time is Int (seconds).
* The Go map[int64]*UserState is an association list with at most one
  binding per key (lookupS / setS / delS below).  In-place mutation through
  the *UserState pointer is modelled by writing the updated value back to
  the map at the same key, which is observationally the same thing.
* The engine model uses value semantics for Expense records.  This is
  faithful for the main engine because every collaborator call returns
  freshly allocated records, so no two live references alias — with the
  single exception of prepareExpenseSelection, whose []*Expense slice of
  shared pointers is modelled separately, at pointer level, with an
  explicit heap (see the Addr / Heap section).
* External collaborators (storage, messaging, the strconv parsers, the
  clock, the rate limiter decision) are an oracle record Env supplied per
  processed event; the spec places storage, messaging and input-format
  validation outside the core.
* Outbound replies are collected in Output.replies.  Message texts that no
  claim depends on are abbreviated; texts that claims do depend on (the
  re-prompts, denials and the invalid-selection reply) are kept verbatim.
* Output.gateConsulted records whether the code path called
  rateLimiter.Allow(); the only call site in the source is handleMessage.
* A nil-pointer dereference of TempExpense (a Go panic) is modelled as the
  .error outcome of Except Unit; the nil-safety claim proves it is
  unreachable from reachable engine states.
-/

/-- Step enumeration from internal/models/expense.go (iota from 100; the
numeric values never matter to the engine, only the identity). -/
inductive Step where
  | start
  | vehicleType
  | category
  | odometer
  | petrolPrice
  | totalPrice
  | notes
  | complete
  | editExpense
  | editCategory
  | editVehicleType
  | editOdometer
  | editPetrolPrice
  | editTotalPrice
  | editNotes
  | deleteExpense
  | confirmDelete
  | searchExpense
  | none
  deriving Repr, DecidableEq

/-- Expense record from internal/models/expense.go.  VehicleType is Go
sql.NullString, modelled as Option String.  Pure-persistence fields that the
engine never reads or writes (embeddings, similarity, createdAt, updatedAt,
deletedAt) are omitted. -/
structure Expense where
  id : Int := 0
  userId : Int := 0
  categoryId : Int := 0
  vehicleType : Option String := Option.none
  odometer : ℚ := 0
  petrolPrice : ℚ := 0
  totalPrice : ℚ := 0
  notes : String := ""
  timestamp : Int := 0
  categoryName : String := ""
  categoryEmoji : String := ""
  categoryGroup : String := ""
  deriving Repr, DecidableEq

/-- User record from internal/models/expense.go (fields the engine reads). -/
structure User where
  id : Int := 0
  telegramId : Int := 0
  deriving Repr, DecidableEq

/-- Category record from internal/models/expense.go (fields the engine
reads: Name, Emoji, Group). -/
structure Category where
  name : String := ""
  emoji : String := ""
  group : String := ""
  deriving Repr, DecidableEq

/-- UserState from internal/models/user_state.go.  ExpenseSelection is kept
as value copies here; its pointer-level aliasing is modelled separately. -/
structure UserState where
  step : Step
  vehicleTypeFld : String := ""
  categoryFld : String := ""
  odometerFld : ℚ := 0
  petrolPriceFld : ℚ := 0
  totalPriceFld : ℚ := 0
  notesFld : String := ""
  editMode : Bool := false
  editId : String := ""
  deleteExpense : Option Expense := Option.none
  tempExpense : Option Expense := Option.none
  expenseSelection : List Expense := []
  lastActivity : Int := 0
  createdAt : Int := 0
  updatedAt : Int := 0
  deriving Repr, DecidableEq

/-- NewUserState from internal/models/user_state.go: Step = StepStart and
all three timestamps set to now. -/
def newUserState (now : Int) : UserState :=
  { step := Step.start, lastActivity := now, createdAt := now, updatedAt := now }

/-- UpdateActivity from internal/models/user_state.go. -/
def updateActivity (s : UserState) (now : Int) : UserState :=
  { s with lastActivity := now, updatedAt := now }

/-- The states map map[int64]*UserState, one binding per key. -/
abbrev StMap := List (Int × UserState)

/-- Map read (states[userID]). -/
def lookupS (m : StMap) (k : Int) : Option UserState :=
  (m.find? (fun p => p.1 = k)).map (fun p => p.2)

/-- Map write (states[userID] = state, or in-place mutation through the
stored pointer). -/
def setS (m : StMap) (k : Int) (v : UserState) : StMap :=
  (k, v) :: m.filter (fun p => p.1 ≠ k)

/-- Map delete (delete(states, userID)). -/
def delS (m : StMap) (k : Int) : StMap :=
  m.filter (fun p => p.1 ≠ k)

/-- Go strings.HasPrefix, modelled over the character list so the kernel
can evaluate it. -/
def strStartsWith (s p : String) : Bool :=
  p.data.isPrefixOf s.data

/-- Go strings.TrimPrefix (the caller already knows the prefix length). -/
def strDrop (s : String) (n : Nat) : String :=
  ⟨s.data.drop n⟩

/-- Go strings.TrimSpace, modelled over the character list. -/
def strTrim (s : String) : String :=
  ⟨((s.data.dropWhile (fun c => c.isWhitespace)).reverse.dropWhile (fun c => c.isWhitespace)).reverse⟩

/-- An inbound text message (the fields of tgbotapi.Message the engine
reads: From.ID, Chat.ID, Text). -/
structure Message where
  fromId : Int
  chatId : Int
  text : String
  deriving Repr, DecidableEq

/-- An inbound callback query (Message.Chat.ID and Data). -/
structure Callback where
  chatId : Int
  data : String
  deriving Repr, DecidableEq

/-- Per-event oracle for the external collaborators: the clock, the rate
limiter decision, messaging success, the storage calls and the strconv
parsers (input-format validation is outside the core per the spec). -/
structure Env where
  now : Int
  allow : Bool
  sendOk : Bool
  parseFloat : String → Option ℚ
  parseInt : String → Option Int
  getCategoryByName : String → Except Unit (Option Category)
  getCategoriesByGroup : String → Except Unit (List Category)
  getExpenseByID : Int → Except Unit (Option Expense)
  getUserByTelegramID : Int → Except Unit (Option User)
  getOrCreateUserOk : Bool
  createExpenseOk : Bool
  updateExpenseOk : Bool
  deleteExpenseOk : Bool
  searchByQuery : Int → String → Except Unit (List Expense)
  getExpensesByTelegramID : Int → Except Unit (List Expense)

/-- Observable output of processing one event: outbound reply texts in
order, and whether rateLimiter.Allow() was called on this path. -/
structure Output where
  replies : List String := []
  gateConsulted : Bool := false
  deriving Repr, DecidableEq

/-- Record one outbound send (sendMessage / api.Send). -/
def send (o : Output) (text : String) : Output :=
  { o with replies := o.replies ++ [text] }

/-- sendError from the bot: logs and sends a generic error text. -/
def sendErr (o : Output) : Output :=
  send o "An error occurred."

/-- Engine state: the session map, the list of expenses persisted through
CreateExpense (to observe the add flow), and the configured timeout
(stateTimeout, 30 minutes by default, in seconds). -/
structure BotState where
  states : StMap := []
  persisted : List Expense := []
  stateTimeout : Int := 1800
  deriving Repr, DecidableEq

/-- The engine state at process start (NewBot). -/
def initialBotState : BotState := {}

/-- cleanupExpiredStates: one sweep of the eviction routine; removes every
state with now − LastActivity > stateTimeout and keeps the rest. -/
def cleanupExpiredStates (now timeout : Int) (m : StMap) : StMap :=
  m.filter (fun p => ¬ (now - p.2.lastActivity > timeout))

/-- parseFloatOrReply from internal/bot/helpers.go.  Returns the parsed
value, the updated output, and whether the returned Go error was non-nil.
On parse failure the helper sends the re-prompt and returns the ERROR OF
THE SEND (nil when the send succeeds) together with value 0. -/
def parseFloatOrReply (env : Env) (o : Output) (text fieldName : String) :
    ℚ × Output × Bool :=
  match env.parseFloat text with
  | Option.some v => (v, o, false)
  | Option.none =>
      ((0 : ℚ),
       send o ("Please enter a valid number for the " ++ fieldName ++ "."),
       ¬ env.sendOk)

/-- checkExpenseOwnership from internal/bot/helpers.go: resolves the user
by Telegram id and compares the record's owning-user id with the resolved
user's id.  Returns the error text, or none when the check passes. -/
def checkExpenseOwnership (env : Env) (userID : Int) (e : Expense) :
    Option String :=
  match env.getUserByTelegramID userID with
  | Except.error _ => Option.some "could not find your user record"
  | Except.ok Option.none => Option.some "could not find your user record"
  | Except.ok (Option.some u) =>
      if e.userId ≠ u.id then Option.some "you can only modify your own expenses"
      else Option.none

/-- The expense draft handed to a first callback when the state had no
TempExpense: &models.Expense{UserID: chatID}. -/
def initDraft (chatId : Int) : Expense :=
  { userId := chatId }

/-- The expense struct literal built at the Notes step before CreateExpense:
only CategoryName, TotalPrice, Odometer, PetrolPrice, Notes are copied from
the draft, plus Timestamp := time.Now(); every other field keeps its Go
zero value. -/
def buildExpense (d : Expense) (now : Int) : Expense :=
  { categoryName := d.categoryName, totalPrice := d.totalPrice,
    odometer := d.odometer, petrolPrice := d.petrolPrice,
    notes := d.notes, timestamp := now }

/-- getState followed by the lazily-creating setState(NewUserState()) used
by several entry points. -/
def getOrCreateAt (m : StMap) (k now : Int) : UserState × StMap :=
  match lookupS m k with
  | Option.some s => (s, m)
  | Option.none => (newUserState now, setS m k (newUserState now))

/-- tgbotapi Message.IsCommand (a text starting with a slash). -/
def isCommandText (t : String) : Bool :=
  strStartsWith t "/"

/-- tgbotapi Message.Command: the word after the slash, bot mention
stripped. -/
def commandOf (t : String) : String :=
  ⟨((t.data.drop 1).takeWhile (fun c => c ≠ ' ')).takeWhile (fun c => c ≠ '@')⟩

/-- sendWelcome (reply text abbreviated; no state effect). -/
def sendWelcomeOut (o : Output) : Output :=
  send o "Welcome to the Expense Tracker Bot!"

/-- sendHelp (reply text abbreviated; no state effect). -/
def sendHelpOut (o : Output) : Output :=
  send o "Here are the available commands:"

/-- prepareExpenseSelection from internal/bot/helpers.go over the value
model: fetch, truncate to maxExpenses, copy, store in the user state
(creating the state if absent). -/
def prepareExpenseSelection (env : Env) (userID : Int) (maxExpenses : Nat)
    (bs : BotState) : Except Unit (List Expense) × BotState :=
  match env.getExpensesByTelegramID userID with
  | Except.error _ => (Except.error (), bs)
  | Except.ok expenses =>
      if expenses = [] then (Except.ok [], bs)
      else
        let expensesToShow :=
          if expenses.length > maxExpenses then expenses.take maxExpenses
          else expenses
        let expensesCopy := expensesToShow
        let g := getOrCreateAt bs.states userID env.now
        let st2 := { g.1 with expenseSelection := expensesCopy }
        (Except.ok expensesToShow, { bs with states := setS g.2 userID st2 })

/-- handleAddCommand from internal/bot/handler.go. -/
def handleAddCommand (_env : Env) (_m : Message) (bs : BotState) (o : Output) :
    BotState × Output :=
  (bs, send o "Select a category group:")

/-- handleListCommand from internal/bot/handler.go (list text abbreviated). -/
def handleListCommand (env : Env) (m : Message) (bs : BotState) (o : Output) :
    BotState × Output :=
  match env.getExpensesByTelegramID m.fromId with
  | Except.error _ => (bs, sendErr o)
  | Except.ok _expenses => (bs, send o "Your expenses:")

/-- handleEditCommand from internal/bot/handler.go. -/
def handleEditCommand (env : Env) (m : Message) (bs : BotState) (o : Output) :
    BotState × Output :=
  match prepareExpenseSelection env m.fromId 10 bs with
  | (Except.error _, bs1) => (bs1, sendErr o)
  | (Except.ok expenses, bs1) =>
      if expenses = [] then (bs1, send o "No expenses found to edit.")
      else (bs1, send o "Select an expense to edit:")

/-- handleDeleteCommand from internal/bot/handler.go. -/
def handleDeleteCommand (env : Env) (m : Message) (bs : BotState) (o : Output) :
    BotState × Output :=
  match prepareExpenseSelection env m.fromId 10 bs with
  | (Except.error _, bs1) => (bs1, sendErr o)
  | (Except.ok expenses, bs1) =>
      if expenses = [] then (bs1, send o "No expenses found to delete.")
      else (bs1, send o "Select an expense to delete:")

/-- handleReportCommand from internal/bot/handler.go (report text
abbreviated). -/
def handleReportCommand (env : Env) (m : Message) (bs : BotState) (o : Output) :
    BotState × Output :=
  match env.getExpensesByTelegramID m.fromId with
  | Except.error _ => (bs, sendErr o)
  | Except.ok _expenses => (bs, send o "📊 Expense Report")

/-- handleDashboardCommand from internal/bot/handler.go (dashboard text
abbreviated). -/
def handleDashboardCommand (env : Env) (m : Message) (bs : BotState) (o : Output) :
    BotState × Output :=
  match env.getExpensesByTelegramID m.fromId with
  | Except.error _ => (bs, sendErr o)
  | Except.ok _expenses => (bs, send o "📱 Expense Dashboard")

/-- handleSearchCommand from internal/bot/handler.go: refuse when the user
has no expenses, otherwise move the user state to StepSearchExpense. -/
def handleSearchCommand (env : Env) (m : Message) (bs : BotState) (o : Output) :
    BotState × Output :=
  match env.getExpensesByTelegramID m.fromId with
  | Except.error _ => (bs, sendErr o)
  | Except.ok expenses =>
      if expenses = [] then
        (bs, send o "You don't have any expenses yet. Add some expenses first to use semantic search.")
      else
        let g := getOrCreateAt bs.states m.fromId env.now
        let st2 := { g.1 with step := Step.searchExpense }
        ({ bs with states := setS g.2 m.fromId st2 }, send o "🔍 Semantic Search")

/-- handleSearchQuery from internal/bot/handler.go: trim the query, run the
similarity search, and set Step to StepNone only on a non-empty result. -/
def handleSearchQuery (env : Env) (m : Message) (bs : BotState) (o : Output) :
    BotState × Output :=
  let query := strTrim m.text
  if query = "" then (bs, send o "Please enter a search query.")
  else
    match env.searchByQuery m.fromId query with
    | Except.error _ => (bs, sendErr o)
    | Except.ok expenses =>
        if expenses = [] then
          (bs, send o ("No expenses found matching: " ++ query))
        else
          match lookupS bs.states m.fromId with
          | Option.some st =>
              ({ bs with states := setS bs.states m.fromId { st with step := Step.none } },
               send o ("🔍 Search Results for: " ++ query))
          | Option.none => (bs, send o ("🔍 Search Results for: " ++ query))

/-- handleCommand from the main bot file. -/
def handleCommand (env : Env) (m : Message) (bs : BotState) (o : Output) :
    BotState × Output :=
  let c := commandOf m.text
  if c = "start" then (bs, sendWelcomeOut o)
  else if c = "help" then (bs, sendHelpOut o)
  else if c = "add" then handleAddCommand env m bs o
  else if c = "list" then handleListCommand env m bs o
  else if c = "edit" then handleEditCommand env m bs o
  else if c = "delete" then handleDeleteCommand env m bs o
  else if c = "report" then handleReportCommand env m bs o
  else if c = "dashboard" then handleDashboardCommand env m bs o
  else if c = "search" then handleSearchCommand env m bs o
  else if c = "cancel" then
    ({ bs with states := delS bs.states m.chatId }, send o "Operation cancelled.")
  else (bs, send o "Unknown command. Use /help to see available commands.")

/-- The state written by one numeric-input step: store the parsed value in
the draft and move to the next step. -/
def numericState (s : UserState) (e : Expense) (v : ℚ)
    (upd : Expense → ℚ → Expense) (nextStep : Step) : UserState :=
  { s with tempExpense := Option.some (upd e v), step := nextStep }

/-- One numeric-input step of handleState (the Odometer / PetrolPrice /
TotalPrice arms and their Edit variants share this exact shape in the
source): parse via parseFloatOrReply; when the helper returned a non-nil
error, stop; otherwise store the value (0 when the parse failed but the
re-prompt was delivered), advance the step and send the next prompt. -/
def numericStep (env : Env) (m : Message) (s : UserState) (bs : BotState)
    (o : Output) (fieldName : String) (upd : Expense → ℚ → Expense)
    (nextStep : Step) (prompt : String) : Except Unit (BotState × Output) :=
  if (parseFloatOrReply env o m.text fieldName).2.2 then
    Except.ok (bs, (parseFloatOrReply env o m.text fieldName).2.1)
  else
    match s.tempExpense with
    | Option.none => Except.error ()
    | Option.some e =>
        let s2 := numericState s e (parseFloatOrReply env o m.text fieldName).1 upd nextStep
        Except.ok ({ bs with states := setS bs.states m.fromId s2 },
                   send (parseFloatOrReply env o m.text fieldName).2.1 prompt)

/-- The draft after the Notes-step mutations: Notes := text unless /skip,
then Timestamp := now and UserID := From.ID. -/
def notesDraft (e0 : Expense) (t : String) (now fromId : Int) : Expense :=
  if t ≠ "/skip" then { e0 with notes := t, timestamp := now, userId := fromId }
  else { e0 with timestamp := now, userId := fromId }

/-- The engine state after the Notes-step draft mutations (they happen
through the stored pointer before any storage call, so they survive the
error returns). -/
def notesWritten (m : Message) (s : UserState) (e2 : Expense) (bs : BotState) :
    BotState :=
  { bs with states := setS bs.states m.fromId { s with tempExpense := Option.some e2 } }

/-- The engine state after a successful Notes-step persistence: the built
expense is appended and the session entry at Chat.ID is deleted. -/
def notesFinal (env : Env) (m : Message) (s : UserState) (e0 : Expense)
    (bs : BotState) : BotState :=
  { states := delS (notesWritten m s (notesDraft e0 m.text env.now m.fromId) bs).states m.chatId,
    persisted := bs.persisted ++ [buildExpense (notesDraft e0 m.text env.now m.fromId) env.now],
    stateTimeout := bs.stateTimeout }

/-- The state written by the EditNotes arm: Notes := text, or "" on /skip,
and back to StepEditExpense. -/
def editNotesState (s : UserState) (e : Expense) (t : String) : UserState :=
  { s with
    tempExpense := Option.some (if t ≠ "/skip" then { e with notes := t } else { e with notes := "" }),
    step := Step.editExpense }

/-- The Notes arm of handleState: apply the draft mutations, ensure the
user record, resolve the category, persist, delete the session entry. -/
def notesStep (env : Env) (m : Message) (s : UserState) (bs : BotState)
    (o : Output) : Except Unit (BotState × Output) :=
  match s.tempExpense with
  | Option.none => Except.error ()
  | Option.some e0 =>
      if ¬ env.getOrCreateUserOk then
        Except.ok (notesWritten m s (notesDraft e0 m.text env.now m.fromId) bs, sendErr o)
      else
        match env.getCategoryByName (notesDraft e0 m.text env.now m.fromId).categoryName with
        | Except.error _ =>
            Except.ok (notesWritten m s (notesDraft e0 m.text env.now m.fromId) bs, sendErr o)
        | Except.ok Option.none =>
            Except.ok (notesWritten m s (notesDraft e0 m.text env.now m.fromId) bs,
                       send o "Category not found. Please try again.")
        | Except.ok (Option.some _cat) =>
            if ¬ env.createExpenseOk then
              Except.ok (notesWritten m s (notesDraft e0 m.text env.now m.fromId) bs, sendErr o)
            else
              Except.ok (notesFinal env m s e0 bs, send o "✅ Expense added successfully!")

/-- The EditNotes arm of handleState. -/
def editNotesStep (env : Env) (m : Message) (s : UserState) (bs : BotState)
    (o : Output) : Except Unit (BotState × Output) :=
  match s.tempExpense with
  | Option.none => Except.error ()
  | Option.some e =>
      Except.ok ({ bs with states := setS bs.states m.fromId (editNotesState s e m.text) },
                 send o "Updated expense. Select what to edit:")

/-- The step dispatch of handleState (the switch on state.Step). -/
def stepDispatch (env : Env) (m : Message) (s : UserState) (bs : BotState)
    (o : Output) : Except Unit (BotState × Output) :=
  match s.step with
  | Step.start => Except.ok (bs, sendWelcomeOut o)
  | Step.odometer =>
      numericStep env m s bs o "odometer reading"
        (fun e v => { e with odometer := v }) Step.petrolPrice
        "⛽ Please enter the petrol price per liter:"
  | Step.petrolPrice =>
      numericStep env m s bs o "petrol price"
        (fun e v => { e with petrolPrice := v }) Step.totalPrice
        "💰 Please enter the total price:"
  | Step.totalPrice =>
      numericStep env m s bs o "total price"
        (fun e v => { e with totalPrice := v }) Step.notes
        "📝 Add any notes (or send /skip to skip):"
  | Step.notes => notesStep env m s bs o
  | Step.editOdometer =>
      numericStep env m s bs o "odometer reading"
        (fun e v => { e with odometer := v }) Step.editExpense
        "Updated expense. Select what to edit:"
  | Step.editPetrolPrice =>
      numericStep env m s bs o "petrol price"
        (fun e v => { e with petrolPrice := v }) Step.editExpense
        "Updated expense. Select what to edit:"
  | Step.editTotalPrice =>
      numericStep env m s bs o "total price"
        (fun e v => { e with totalPrice := v }) Step.editExpense
        "Updated expense. Select what to edit:"
  | Step.editNotes => editNotesStep env m s bs o
  | _ => Except.ok (bs, send o "Please use one of the available commands or buttons.")

/-- handleState from the main bot file: keyboard-button escape hatch, the
search step, then the step dispatch.  The argument s is the caller's
current pointer to the user state, already stored at m.fromId.  A nil
TempExpense dereference is the .error outcome. -/
def handleState (env : Env) (m : Message) (s : UserState) (bs : BotState)
    (o : Output) : Except Unit (BotState × Output) :=
  if m.text = "📝 Add Expense" then Except.ok (handleAddCommand env m bs o)
  else if m.text = "📋 List Expenses" then Except.ok (handleListCommand env m bs o)
  else if m.text = "✏️ Edit Expense" then Except.ok (handleEditCommand env m bs o)
  else if m.text = "🗑️ Delete Expense" then Except.ok (handleDeleteCommand env m bs o)
  else if m.text = "📊 Reports" then Except.ok (handleReportCommand env m bs o)
  else if m.text = "📈 Dashboard" then Except.ok (handleDashboardCommand env m bs o)
  else if s.step = Step.searchExpense then Except.ok (handleSearchQuery env m bs o)
  else stepDispatch env m s bs o

/-- The post-gate part of handleMessage: /skip special case at StepNotes,
command dispatch, then handleState. -/
def msgDispatch (env : Env) (m : Message) (s1 : UserState) (bs1 : BotState) :
    Except Unit (BotState × Output) :=
  if s1.step = Step.notes ∧ m.text = "/skip" then
    handleState env m s1 bs1 { gateConsulted := true }
  else if isCommandText m.text then
    Except.ok (handleCommand env m bs1 { gateConsulted := true })
  else handleState env m s1 bs1 { gateConsulted := true }

/-- handleMessage from the main bot file: the only caller of
rateLimiter.Allow(); on rejection it replies and stops before touching any
state; otherwise it lazily creates the state under From.ID, refreshes
activity, and dispatches. -/
def handleMessage (env : Env) (m : Message) (bs : BotState) :
    Except Unit (BotState × Output) :=
  if ¬ env.allow then
    Except.ok (bs, send { gateConsulted := true } "Too many requests. Please try again later.")
  else
    msgDispatch env m
      (updateActivity (getOrCreateAt bs.states m.fromId env.now).1 env.now)
      { bs with states := setS (getOrCreateAt bs.states m.fromId env.now).2 m.fromId
                  (updateActivity (getOrCreateAt bs.states m.fromId env.now).1 env.now) }

/-- The TempExpense initialization at the top of handleCallbackQuery:
when the current state has a nil TempExpense, it is set (through the
stored pointer) to &models.Expense-with-UserID-chatID before dispatch. -/
def ensureTempDraft (p : UserState × StMap) (chatId : Int) : UserState × StMap :=
  if p.1.tempExpense = Option.none then
    ({ p.1 with tempExpense := Option.some (initDraft chatId) },
     setS p.2 chatId { p.1 with tempExpense := Option.some (initDraft chatId) })
  else p

/-- State written after a category selection in the Vehicle group. -/
def catVehicleState (s : UserState) (e : Expense) (catName : String) : UserState :=
  { s with
    tempExpense := Option.some { e with categoryName := catName },
    step := Step.vehicleType }

/-- State written after a non-vehicle category selection. -/
def catTotalState (s : UserState) (e : Expense) (catName : String) : UserState :=
  { s with
    tempExpense := Option.some { e with categoryName := catName },
    step := Step.totalPrice }

/-- State written after a vehicle-type selection. -/
def vehState (s : UserState) (e : Expense) (vt : String) (st : Step) : UserState :=
  { s with
    tempExpense := Option.some { e with vehicleType := Option.some vt },
    step := st }

/-- State written by an edit-field selection (only the step changes). -/
def stepTo (s : UserState) (st : Step) : UserState :=
  { s with step := st }

/-- State written after edit_vehicle_: only the draft vehicle type. -/
def vehEditState (s : UserState) (e : Expense) (vt : String) : UserState :=
  { s with tempExpense := Option.some { e with vehicleType := Option.some vt } }

/-- State written after selecting an expense to edit. -/
def editSelState (s : UserState) (e : Expense) : UserState :=
  { s with tempExpense := Option.some e, step := Step.editExpense }

/-- State written after selecting an expense to delete. -/
def delSelState (s : UserState) (e : Expense) : UserState :=
  { s with deleteExpense := Option.some e, step := Step.confirmDelete }

/-- The group_ branch of the callback dispatch. -/
def groupBranch (env : Env) (c : Callback) (m2 : StMap) (bs : BotState)
    (o : Output) : Except Unit (BotState × Output) :=
  match env.getCategoriesByGroup (strDrop c.data 6) with
  | Except.error _ => Except.ok ({ bs with states := m2 }, sendErr o)
  | Except.ok _cats => Except.ok ({ bs with states := m2 }, send o "Select a category:")

/-- The category_ branch: resolve the category, store its name in the
draft, then fork on the Vehicle group. -/
def categoryBranch (env : Env) (c : Callback) (s : UserState) (m2 : StMap)
    (bs : BotState) (o : Output) : Except Unit (BotState × Output) :=
  match env.getCategoryByName (strDrop c.data 9) with
  | Except.error _ => Except.ok ({ bs with states := m2 }, sendErr o)
  | Except.ok Option.none => Except.ok ({ bs with states := m2 }, sendErr o)
  | Except.ok (Option.some cat) =>
      match s.tempExpense with
      | Option.none => Except.error ()
      | Option.some e =>
          if cat.group = "Vehicle" then
            Except.ok ({ bs with states := setS m2 c.chatId (catVehicleState s e cat.name) },
                       send o "Select vehicle type:")
          else
            Except.ok ({ bs with states := setS m2 c.chatId (catTotalState s e cat.name) },
                       send o "💰 Please enter the total price:")

/-- The vehicle_ branch: store the vehicle type; Petrol goes to Odometer,
other vehicle categories go straight to TotalPrice. -/
def vehicleBranch (env : Env) (c : Callback) (s : UserState) (m2 : StMap)
    (bs : BotState) (o : Output) : Except Unit (BotState × Output) :=
  match s.tempExpense with
  | Option.none => Except.error ()
  | Option.some e =>
      if e.categoryName = "Petrol" then
        Except.ok ({ bs with states := setS m2 c.chatId (vehState s e (strDrop c.data 8) Step.odometer) },
                   send o "🔢 Please enter the odometer reading (in km):")
      else
        Except.ok ({ bs with states := setS m2 c.chatId (vehState s e (strDrop c.data 8) Step.totalPrice) },
                   send o "💰 Please enter the total price:")

/-- The edit_field_ branch: move to the chosen edit sub-step. -/
def editFieldBranch (c : Callback) (s : UserState) (m2 : StMap)
    (bs : BotState) (o : Output) : Except Unit (BotState × Output) :=
  if strDrop c.data 11 = "category" then
    Except.ok ({ bs with states := setS m2 c.chatId (stepTo s Step.editCategory) },
               send o "Select new category:")
  else if strDrop c.data 11 = "vehicle" then
    Except.ok ({ bs with states := setS m2 c.chatId (stepTo s Step.editVehicleType) },
               send o "Select new vehicle type:")
  else if strDrop c.data 11 = "odometer" then
    Except.ok ({ bs with states := setS m2 c.chatId (stepTo s Step.editOdometer) },
               send o "🔢 Enter new odometer reading (in km):")
  else if strDrop c.data 11 = "petrol" then
    Except.ok ({ bs with states := setS m2 c.chatId (stepTo s Step.editPetrolPrice) },
               send o "⛽ Enter new petrol price per liter:")
  else if strDrop c.data 11 = "total" then
    Except.ok ({ bs with states := setS m2 c.chatId (stepTo s Step.editTotalPrice) },
               send o "💰 Enter new total price:")
  else if strDrop c.data 11 = "notes" then
    Except.ok ({ bs with states := setS m2 c.chatId (stepTo s Step.editNotes) },
               send o "📝 Enter new notes (or send /skip to clear):")
  else Except.ok ({ bs with states := m2 }, send o "Invalid edit field selection.")

/-- The edit_vehicle_ branch. -/
def editVehicleBranch (c : Callback) (s : UserState) (m2 : StMap)
    (bs : BotState) (o : Output) : Except Unit (BotState × Output) :=
  match s.tempExpense with
  | Option.some e =>
      Except.ok ({ bs with states := setS m2 c.chatId (vehEditState s e (strDrop c.data 13)) },
                 send o "Updated expense. Select what to edit:")
  | Option.none => Except.ok ({ bs with states := m2 }, sendErr o)

/-- The edit_save branch: persist the update, delete the session entry. -/
def editSaveBranch (env : Env) (c : Callback) (s : UserState) (m2 : StMap)
    (bs : BotState) (o : Output) : Except Unit (BotState × Output) :=
  match s.tempExpense with
  | Option.none => Except.ok ({ bs with states := m2 }, send o "No expense to save.")
  | Option.some _e =>
      if ¬ env.updateExpenseOk then Except.ok ({ bs with states := m2 }, sendErr o)
      else Except.ok ({ bs with states := delS m2 c.chatId },
                      send o "✅ Expense updated successfully!")

/-- The bare edit_<id> branch: parse the id, load the expense, check
ownership, then stage it for editing. -/
def editPickBranch (env : Env) (c : Callback) (s : UserState) (m2 : StMap)
    (bs : BotState) (o : Output) : Except Unit (BotState × Output) :=
  match env.parseInt (strDrop c.data 5) with
  | Option.none => Except.ok ({ bs with states := m2 }, sendErr o)
  | Option.some expenseID =>
      match env.getExpenseByID expenseID with
      | Except.error _ => Except.ok ({ bs with states := m2 }, sendErr o)
      | Except.ok Option.none => Except.ok ({ bs with states := m2 }, send o "Expense not found.")
      | Except.ok (Option.some expenseToEdit) =>
          match checkExpenseOwnership env c.chatId expenseToEdit with
          | Option.some msgTxt => Except.ok ({ bs with states := m2 }, send o msgTxt)
          | Option.none =>
              Except.ok ({ bs with states := setS m2 c.chatId (editSelState s expenseToEdit) },
                         send o "Editing expense. Select what to edit:")

/-- The delete_<id> branch: parse the id, load the expense, check
ownership, then stage it for deletion confirmation. -/
def deletePickBranch (env : Env) (c : Callback) (s : UserState) (m2 : StMap)
    (bs : BotState) (o : Output) : Except Unit (BotState × Output) :=
  match env.parseInt (strDrop c.data 7) with
  | Option.none => Except.ok ({ bs with states := m2 }, sendErr o)
  | Option.some expenseID =>
      match env.getExpenseByID expenseID with
      | Except.error _ => Except.ok ({ bs with states := m2 }, sendErr o)
      | Except.ok Option.none => Except.ok ({ bs with states := m2 }, send o "Expense not found.")
      | Except.ok (Option.some expenseToDelete) =>
          match checkExpenseOwnership env c.chatId expenseToDelete with
          | Option.some msgTxt => Except.ok ({ bs with states := m2 }, send o msgTxt)
          | Option.none =>
              Except.ok ({ bs with states := setS m2 c.chatId (delSelState s expenseToDelete) },
                         send o "Are you sure you want to delete this expense?")

/-- The confirm_delete branch: delete the record, delete the session
entry. -/
def confirmDeleteBranch (env : Env) (c : Callback) (s : UserState)
    (m2 : StMap) (bs : BotState) (o : Output) : Except Unit (BotState × Output) :=
  match s.deleteExpense with
  | Option.none => Except.ok ({ bs with states := m2 }, send o "No expense selected for deletion.")
  | Option.some _e =>
      if ¬ env.deleteExpenseOk then Except.ok ({ bs with states := m2 }, sendErr o)
      else Except.ok ({ bs with states := delS m2 c.chatId },
                      send o "✅ Expense deleted successfully!")

/-- The confirm_ catch-all branch (confirm_yes and anything else): the
session entry is deleted either way. -/
def confirmBranch (c : Callback) (s : UserState) (m2 : StMap)
    (bs : BotState) (o : Output) : Except Unit (BotState × Output) :=
  if c.data = "confirm_yes" ∧ s.step = Step.confirmDelete ∧ s.deleteExpense ≠ Option.none then
    Except.ok ({ bs with states := delS m2 c.chatId },
               send o "✅ Expense deleted successfully!")
  else
    Except.ok ({ bs with states := delS m2 c.chatId }, send o "Operation cancelled.")

/-- The payload dispatch of handleCallbackQuery, in source order: s is the
state after the TempExpense initialization, m2 the session map holding it. -/
def cbDispatch (env : Env) (c : Callback) (s : UserState) (m2 : StMap)
    (bs : BotState) (o : Output) : Except Unit (BotState × Output) :=
  if strStartsWith c.data "group_" then groupBranch env c m2 bs o
  else if strStartsWith c.data "category_" then categoryBranch env c s m2 bs o
  else if strStartsWith c.data "vehicle_" then vehicleBranch env c s m2 bs o
  else if strStartsWith c.data "edit_field_" then editFieldBranch c s m2 bs o
  else if strStartsWith c.data "edit_vehicle_" then editVehicleBranch c s m2 bs o
  else if c.data = "edit_save" then editSaveBranch env c s m2 bs o
  else if c.data = "edit_cancel" then
    Except.ok ({ bs with states := delS m2 c.chatId }, send o "❌ Edit cancelled.")
  else if strStartsWith c.data "edit_" then editPickBranch env c s m2 bs o
  else if strStartsWith c.data "delete_" then deletePickBranch env c s m2 bs o
  else if c.data = "confirm_delete" then confirmDeleteBranch env c s m2 bs o
  else if c.data = "back_to_groups" then
    Except.ok ({ bs with states := m2 }, send o "Select a category group:")
  else if c.data = "back_to_main" then
    Except.ok ({ bs with states := m2 }, send o "Main menu:")
  else if strStartsWith c.data "confirm_" then confirmBranch c s m2 bs o
  else
    Except.ok ({ bs with states := m2 }, send o "Invalid selection. Please try again.")

/-- handleCallbackQuery from the main bot file: lazily creates the state
under Chat.ID, initializes a nil TempExpense, then dispatches on the
payload.  Never consults the rate limiter. -/
def handleCallbackQuery (env : Env) (c : Callback) (bs : BotState) :
    Except Unit (BotState × Output) :=
  cbDispatch env c
    (ensureTempDraft (getOrCreateAt bs.states c.chatId env.now) c.chatId).1
    (ensureTempDraft (getOrCreateAt bs.states c.chatId env.now) c.chatId).2
    bs { gateConsulted := false }

/-- HandleUpdate from the main bot file for a message update (the webhook
entry point): keyed by Chat.ID, no rate limit, no activity refresh. -/
def handleUpdateMsg (env : Env) (m : Message) (bs : BotState) :
    Except Unit (BotState × Output) :=
  if isCommandText m.text then
    Except.ok (handleCommand env m
      { bs with states := (getOrCreateAt bs.states m.chatId env.now).2 } ({} : Output))
  else if (getOrCreateAt bs.states m.chatId env.now).1.step = Step.start then
    Except.ok ({ bs with states := (getOrCreateAt bs.states m.chatId env.now).2 },
               sendWelcomeOut ({} : Output))
  else
    Except.ok ({ bs with states := (getOrCreateAt bs.states m.chatId env.now).2 },
               send ({} : Output) "Please use one of the available commands.")

/-- One engine event: a message or callback drained by the Start loop, a
message through HandleUpdate, or one eviction sweep. -/
inductive Ev where
  | msg (env : Env) (m : Message)
  | cb (env : Env) (c : Callback)
  | upd (env : Env) (m : Message)
  | sweep (env : Env)

/-- Processing one event. -/
def stepBot : Ev → BotState → Except Unit (BotState × Output)
  | Ev.msg env m, bs => handleMessage env m bs
  | Ev.cb env c, bs => handleCallbackQuery env c bs
  | Ev.upd env m, bs => handleUpdateMsg env m bs
  | Ev.sweep env, bs =>
      Except.ok ({ bs with states := cleanupExpiredStates env.now bs.stateTimeout bs.states },
                 ({} : Output))

/-- Running a list of events in order, stopping at a panic. -/
def runEvents : List Ev → BotState → Except Unit BotState
  | [], bs => Except.ok bs
  | e :: es, bs =>
      match stepBot e bs with
      | Except.error u => Except.error u
      | Except.ok (bs1, _o) => runEvents es bs1

/-- Engine states reachable from process start through successfully handled
events. -/
inductive Reachable : BotState → Prop where
  | init : Reachable initialBotState
  | step : ∀ {bs e bs1 o}, Reachable bs → stepBot e bs = Except.ok (bs1, o) →
      Reachable bs1

/-! ### Pointer-level model of prepareExpenseSelection

The Go function receives a []*models.Expense from the storage collaborator
and runs copy() on that slice of pointers.  Value semantics cannot express
what that shares, so this part is modelled with explicit addresses: an
Addr is a *models.Expense, the Heap maps addresses to records, and the
stored ExpenseSelection is the list of addresses the copy produced. -/

/-- A *models.Expense pointer. -/
abbrev Addr := Nat

/-- The Go heap restricted to expense records. -/
abbrev Heap := List (Addr × Expense)

/-- Pointer dereference. -/
def heapRead (h : Heap) (a : Addr) : Option Expense :=
  (h.find? (fun p => p.1 = a)).map (fun p => p.2)

/-- In-place mutation of the record behind a pointer (for example
expense.TotalPrice = x on a selected expense). -/
def heapWrite (h : Heap) (a : Addr) (e : Expense) : Heap :=
  (a, e) :: h.filter (fun p => p.1 ≠ a)

/-- prepareExpenseSelection from internal/bot/helpers.go at pointer level:
an empty fetch returns nil and stores nothing; otherwise the slice is
truncated to maxExpenses and copy() duplicates the POINTER slice, so the
selection stored in the user state is the same addresses the live list
holds. -/
def prepareSelectionAddrs (expenses : List Addr) (maxExpenses : Nat) :
    Option (List Addr) :=
  if expenses = [] then Option.none
  else Option.some
    (if expenses.length > maxExpenses then expenses.take maxExpenses
     else expenses)

/-! ### Association-map lemmas -/

/-- Reading the key just written. -/
theorem lookupS_setS_self (m : StMap) (k : Int) (v : UserState) :
    lookupS (setS m k v) k = Option.some v := by
  simp [lookupS, setS, List.find?]

/-- find? for one key skips entries filtered out at a different key. -/
theorem find?_filter_ne_key (t : StMap) (k k2 : Int) (h : k2 ≠ k) :
    List.find? (fun p => p.1 = k2) (t.filter (fun p => p.1 ≠ k)) =
    List.find? (fun p => p.1 = k2) t := by
  induction t with
  | nil => rfl
  | cons p t ih =>
      by_cases hp : p.1 = k
      · rw [List.filter_cons_of_neg (by simp [hp]), ih, List.find?_cons_of_neg _ (by simp [hp, Ne.symm h])]
      · rw [List.filter_cons_of_pos (by simp [hp])]
        by_cases hq : p.1 = k2
        · rw [List.find?_cons_of_pos _ (by simp [hq]), List.find?_cons_of_pos _ (by simp [hq])]
        · rw [List.find?_cons_of_neg _ (by simp [hq]), List.find?_cons_of_neg _ (by simp [hq]), ih]

/-- Writing one key does not change another. -/
theorem lookupS_setS_ne (m : StMap) (k k2 : Int) (v : UserState)
    (h : k2 ≠ k) : lookupS (setS m k v) k2 = lookupS m k2 := by
  simp only [lookupS, setS]
  rw [List.find?_cons_of_neg _ (by simp [Ne.symm h]), find?_filter_ne_key m k k2 h]

/-- Reading a deleted key. -/
theorem lookupS_delS_self (m : StMap) (k : Int) :
    lookupS (delS m k) k = Option.none := by
  simp only [lookupS, delS]
  induction m with
  | nil => rfl
  | cons p t ih =>
      by_cases hp : p.1 = k
      · simpa [List.filter, hp] using ih
      · simp only [List.filter, hp]
        simp only [decide_not, List.find?]
        simp [hp, ih, lookupS, delS]

/-- Members of a map after a write. -/
theorem mem_setS {m : StMap} {k : Int} {v : UserState} {p : Int × UserState}
    (h : p ∈ setS m k v) : p = (k, v) ∨ p ∈ m := by
  simp only [setS, List.mem_cons] at h
  rcases h with h | h
  · exact Or.inl h
  · exact Or.inr (List.mem_of_mem_filter h)

/-- Members of a map after a delete. -/
theorem mem_delS {m : StMap} {k : Int} {p : Int × UserState}
    (h : p ∈ delS m k) : p ∈ m :=
  List.mem_of_mem_filter h

/-- A successful read is a member. -/
theorem lookupS_mem {m : StMap} {k : Int} {s : UserState}
    (h : lookupS m k = Option.some s) : (k, s) ∈ m := by
  simp only [lookupS, Option.map_eq_some'] at h
  rcases h with ⟨p, hfind, hsnd⟩
  have hmem := List.mem_of_find?_eq_some hfind
  have hk : p.1 = k := by
    have := List.find?_some hfind
    simpa using this
  have : p = (k, s) := by
    cases p
    simp_all
  exact this ▸ hmem

/-! ### The TempExpense invariant -/

/-- The add/edit sub-steps whose handlers dereference TempExpense. -/
def isAddEditSubStep : Step → Bool
  | Step.vehicleType => true
  | Step.odometer => true
  | Step.petrolPrice => true
  | Step.totalPrice => true
  | Step.notes => true
  | Step.editExpense => true
  | Step.editCategory => true
  | Step.editVehicleType => true
  | Step.editOdometer => true
  | Step.editPetrolPrice => true
  | Step.editTotalPrice => true
  | Step.editNotes => true
  | _ => false

/-- The per-state invariant: a state at an add/edit sub-step has a draft. -/
def TempInv (s : UserState) : Prop :=
  isAddEditSubStep s.step = true → s.tempExpense ≠ Option.none

/-- The invariant over the whole session map. -/
def InvMap (m : StMap) : Prop :=
  ∀ p ∈ m, TempInv p.2

theorem invMap_nil : InvMap [] := by
  intro p hp
  cases hp

theorem invMap_setS {m : StMap} {k : Int} {v : UserState}
    (h : InvMap m) (hv : TempInv v) : InvMap (setS m k v) := by
  intro p hp
  rcases mem_setS hp with rfl | hp2
  · exact hv
  · exact h p hp2

theorem invMap_delS {m : StMap} {k : Int} (h : InvMap m) : InvMap (delS m k) :=
  fun p hp => h p (mem_delS hp)

theorem invMap_filter {m : StMap} (q : Int × UserState → Bool)
    (h : InvMap m) : InvMap (m.filter q) :=
  fun p hp => h p (List.mem_of_mem_filter hp)

theorem invMap_lookup {m : StMap} {k : Int} {s : UserState}
    (h : InvMap m) (hl : lookupS m k = Option.some s) : TempInv s :=
  h (k, s) (lookupS_mem hl)

theorem tempInv_of_some {s : UserState} {e : Expense}
    (h : s.tempExpense = Option.some e) : TempInv s := by
  intro _
  simp [h]

theorem tempInv_newUserState (now : Int) : TempInv (newUserState now) := by
  intro h
  simp [newUserState, isAddEditSubStep] at h

theorem tempInv_updateActivity {s : UserState} (now : Int)
    (h : TempInv s) : TempInv (updateActivity s now) := by
  intro hsub
  exact h hsub

/-- getOrCreateAt returns a state satisfying the invariant and a map still
satisfying it. -/
theorem getOrCreateAt_pres {m : StMap} (k now : Int) (h : InvMap m) :
    TempInv (getOrCreateAt m k now).1 ∧ InvMap (getOrCreateAt m k now).2 := by
  unfold getOrCreateAt
  cases hl : lookupS m k with
  | some s => exact ⟨invMap_lookup h hl, h⟩
  | none =>
      exact ⟨tempInv_newUserState now,
             invMap_setS h (tempInv_newUserState now)⟩

/-- ensureTempDraft yields a state with a draft and preserves the map
invariant. -/
theorem ensureTempDraft_pres {p : UserState × StMap} {chatId : Int}
    (hs : TempInv p.1) (hm : InvMap p.2) :
    (ensureTempDraft p chatId).1.tempExpense ≠ Option.none ∧
    TempInv (ensureTempDraft p chatId).1 ∧
    InvMap (ensureTempDraft p chatId).2 := by
  unfold ensureTempDraft
  by_cases h : p.1.tempExpense = Option.none
  · simp only [h, if_pos rfl, if_true]
    refine ⟨by simp, tempInv_of_some rfl, invMap_setS hm (tempInv_of_some rfl)⟩
  · simp only [if_neg h]
    exact ⟨h, hs, hm⟩

/-- prepareExpenseSelection preserves the invariant (it only touches
ExpenseSelection, or creates a fresh Start state). -/
theorem prepareExpenseSelection_pres (env : Env) (uid : Int) (mx : Nat)
    (bs : BotState) (h : InvMap bs.states) :
    InvMap (prepareExpenseSelection env uid mx bs).2.states := by
  unfold prepareExpenseSelection
  cases henv : env.getExpensesByTelegramID uid with
  | error u => exact h
  | ok exps =>
      by_cases he : exps = []
      · simp only [he, if_pos rfl, if_true]
        exact h
      · simp only [if_neg he]
        refine invMap_setS (getOrCreateAt_pres uid env.now h).2 ?_
        intro hsub
        have := (getOrCreateAt_pres (m := bs.states) uid env.now h).1
        exact this hsub

theorem handleAddCommand_pres (env : Env) (m : Message) (bs : BotState)
    (o : Output) (h : InvMap bs.states) :
    InvMap (handleAddCommand env m bs o).1.states := h

theorem handleListCommand_pres (env : Env) (m : Message) (bs : BotState)
    (o : Output) (h : InvMap bs.states) :
    InvMap (handleListCommand env m bs o).1.states := by
  unfold handleListCommand
  cases env.getExpensesByTelegramID m.fromId with
  | error u => exact h
  | ok exps => exact h

theorem handleEditCommand_pres (env : Env) (m : Message) (bs : BotState)
    (o : Output) (h : InvMap bs.states) :
    InvMap (handleEditCommand env m bs o).1.states := by
  have hp := prepareExpenseSelection_pres env m.fromId 10 bs h
  unfold handleEditCommand
  cases hps : prepareExpenseSelection env m.fromId 10 bs with
  | mk r bs1 =>
      rw [hps] at hp
      cases r with
      | error u => exact hp
      | ok exps =>
          by_cases he : exps = []
          · simp only [he, if_pos rfl]
            exact hp
          · simp only [if_neg he]
            exact hp

theorem handleDeleteCommand_pres (env : Env) (m : Message) (bs : BotState)
    (o : Output) (h : InvMap bs.states) :
    InvMap (handleDeleteCommand env m bs o).1.states := by
  have hp := prepareExpenseSelection_pres env m.fromId 10 bs h
  unfold handleDeleteCommand
  cases hps : prepareExpenseSelection env m.fromId 10 bs with
  | mk r bs1 =>
      rw [hps] at hp
      cases r with
      | error u => exact hp
      | ok exps =>
          by_cases he : exps = []
          · simp only [he, if_pos rfl]
            exact hp
          · simp only [if_neg he]
            exact hp

theorem handleReportCommand_pres (env : Env) (m : Message) (bs : BotState)
    (o : Output) (h : InvMap bs.states) :
    InvMap (handleReportCommand env m bs o).1.states := by
  unfold handleReportCommand
  cases env.getExpensesByTelegramID m.fromId with
  | error u => exact h
  | ok exps => exact h

theorem handleDashboardCommand_pres (env : Env) (m : Message) (bs : BotState)
    (o : Output) (h : InvMap bs.states) :
    InvMap (handleDashboardCommand env m bs o).1.states := by
  unfold handleDashboardCommand
  cases env.getExpensesByTelegramID m.fromId with
  | error u => exact h
  | ok exps => exact h

theorem handleSearchCommand_pres (env : Env) (m : Message) (bs : BotState)
    (o : Output) (h : InvMap bs.states) :
    InvMap (handleSearchCommand env m bs o).1.states := by
  unfold handleSearchCommand
  cases env.getExpensesByTelegramID m.fromId with
  | error u => exact h
  | ok exps =>
      by_cases he : exps = []
      · simp only [he, if_pos rfl]
        exact h
      · simp only [if_neg he]
        refine invMap_setS (getOrCreateAt_pres m.fromId env.now h).2 ?_
        intro hsub
        simp [isAddEditSubStep] at hsub

theorem handleSearchQuery_pres (env : Env) (m : Message) (bs : BotState)
    (o : Output) (h : InvMap bs.states) :
    InvMap (handleSearchQuery env m bs o).1.states := by
  unfold handleSearchQuery
  by_cases hq : strTrim m.text = ""
  · simp only [hq, if_pos rfl]
    exact h
  · simp only [if_neg hq]
    cases env.searchByQuery m.fromId (strTrim m.text) with
    | error u => exact h
    | ok exps =>
        by_cases he : exps = []
        · simp only [he, if_pos rfl]
          exact h
        · simp only [if_neg he]
          cases lookupS bs.states m.fromId with
          | some st =>
              refine invMap_setS h ?_
              intro hsub
              simp [isAddEditSubStep] at hsub
          | none => exact h

theorem handleCommand_pres (env : Env) (m : Message) (bs : BotState)
    (o : Output) (h : InvMap bs.states) :
    InvMap (handleCommand env m bs o).1.states := by
  simp only [handleCommand]
  repeat' split
  all_goals first
    | exact h
    | exact handleAddCommand_pres env m bs o h
    | exact handleListCommand_pres env m bs o h
    | exact handleEditCommand_pres env m bs o h
    | exact handleDeleteCommand_pres env m bs o h
    | exact handleReportCommand_pres env m bs o h
    | exact handleDashboardCommand_pres env m bs o h
    | exact handleSearchCommand_pres env m bs o h
    | exact invMap_delS h

theorem numericStep_pres (env : Env) (m : Message) (s : UserState)
    (bs : BotState) (o : Output) (fieldName : String)
    (upd : Expense → ℚ → Expense) (nextStep : Step) (prompt : String)
    (hsome : s.tempExpense ≠ Option.none) (h : InvMap bs.states) :
    ∃ r, numericStep env m s bs o fieldName upd nextStep prompt = Except.ok r ∧
      InvMap r.1.states := by
  unfold numericStep
  split
  · exact ⟨_, rfl, h⟩
  · split
    · exact absurd (by assumption) hsome
    · exact ⟨_, rfl, invMap_setS h (tempInv_of_some rfl)⟩

theorem notesStep_pres (env : Env) (m : Message) (s : UserState)
    (bs : BotState) (o : Output) (hsome : s.tempExpense ≠ Option.none)
    (h : InvMap bs.states) :
    ∃ r, notesStep env m s bs o = Except.ok r ∧ InvMap r.1.states := by
  unfold notesStep
  repeat' split
  all_goals first
    | exact absurd (by assumption) hsome
    | exact ⟨_, rfl, invMap_setS h (tempInv_of_some rfl)⟩
    | exact ⟨_, rfl, invMap_delS (invMap_setS h (tempInv_of_some rfl))⟩

theorem editNotesStep_pres (env : Env) (m : Message) (s : UserState)
    (bs : BotState) (o : Output) (hsome : s.tempExpense ≠ Option.none)
    (h : InvMap bs.states) :
    ∃ r, editNotesStep env m s bs o = Except.ok r ∧ InvMap r.1.states := by
  unfold editNotesStep
  split
  · exact absurd (by assumption) hsome
  · exact ⟨_, rfl, invMap_setS h (tempInv_of_some rfl)⟩

theorem stepDispatch_pres (env : Env) (m : Message) (s : UserState)
    (bs : BotState) (o : Output) (hs : TempInv s) (h : InvMap bs.states) :
    ∃ r, stepDispatch env m s bs o = Except.ok r ∧ InvMap r.1.states := by
  unfold stepDispatch
  split
  all_goals first
    | exact ⟨_, rfl, h⟩
    | (rename_i heq
       first
        | exact numericStep_pres env m s bs o _ _ _ _ (hs (by rw [heq]; rfl)) h
        | exact notesStep_pres env m s bs o (hs (by rw [heq]; rfl)) h
        | exact editNotesStep_pres env m s bs o (hs (by rw [heq]; rfl)) h)

theorem handleState_pres (env : Env) (m : Message) (s : UserState)
    (bs : BotState) (o : Output) (hs : TempInv s) (h : InvMap bs.states) :
    ∃ r, handleState env m s bs o = Except.ok r ∧ InvMap r.1.states := by
  unfold handleState
  repeat' split
  all_goals first
    | exact ⟨_, rfl, handleAddCommand_pres env m bs o h⟩
    | exact ⟨_, rfl, handleListCommand_pres env m bs o h⟩
    | exact ⟨_, rfl, handleEditCommand_pres env m bs o h⟩
    | exact ⟨_, rfl, handleDeleteCommand_pres env m bs o h⟩
    | exact ⟨_, rfl, handleReportCommand_pres env m bs o h⟩
    | exact ⟨_, rfl, handleDashboardCommand_pres env m bs o h⟩
    | exact ⟨_, rfl, handleSearchQuery_pres env m bs o h⟩
    | exact stepDispatch_pres env m s bs o hs h

theorem msgDispatch_pres (env : Env) (m : Message) (s1 : UserState)
    (bs1 : BotState) (hs : TempInv s1) (h : InvMap bs1.states) :
    ∃ r, msgDispatch env m s1 bs1 = Except.ok r ∧ InvMap r.1.states := by
  unfold msgDispatch
  repeat' split
  all_goals first
    | exact handleState_pres env m s1 bs1 _ hs h
    | exact ⟨_, rfl, handleCommand_pres env m bs1 _ h⟩

theorem handleMessage_pres (env : Env) (m : Message) (bs : BotState)
    (h : InvMap bs.states) :
    ∃ r, handleMessage env m bs = Except.ok r ∧ InvMap r.1.states := by
  unfold handleMessage
  split
  · exact ⟨_, rfl, h⟩
  · exact msgDispatch_pres env m _ _
      (tempInv_updateActivity env.now (getOrCreateAt_pres m.fromId env.now h).1)
      (invMap_setS (getOrCreateAt_pres m.fromId env.now h).2
        (tempInv_updateActivity env.now (getOrCreateAt_pres m.fromId env.now h).1))

theorem groupBranch_pres (env : Env) (c : Callback) (m2 : StMap)
    (bs : BotState) (o : Output) (hm : InvMap m2) :
    ∃ r, groupBranch env c m2 bs o = Except.ok r ∧ InvMap r.1.states := by
  unfold groupBranch
  split
  · exact ⟨_, rfl, hm⟩
  · exact ⟨_, rfl, hm⟩

theorem categoryBranch_pres (env : Env) (c : Callback) (s : UserState)
    (m2 : StMap) (bs : BotState) (o : Output)
    (hsome : s.tempExpense ≠ Option.none) (hm : InvMap m2) :
    ∃ r, categoryBranch env c s m2 bs o = Except.ok r ∧ InvMap r.1.states := by
  unfold categoryBranch
  repeat' split
  all_goals first
    | exact ⟨_, rfl, hm⟩
    | exact ⟨_, rfl, invMap_setS hm (tempInv_of_some rfl)⟩
    | exact absurd (by assumption) hsome

theorem vehicleBranch_pres (env : Env) (c : Callback) (s : UserState)
    (m2 : StMap) (bs : BotState) (o : Output)
    (hsome : s.tempExpense ≠ Option.none) (hm : InvMap m2) :
    ∃ r, vehicleBranch env c s m2 bs o = Except.ok r ∧ InvMap r.1.states := by
  unfold vehicleBranch
  repeat' split
  all_goals first
    | exact ⟨_, rfl, invMap_setS hm (tempInv_of_some rfl)⟩
    | exact absurd (by assumption) hsome

theorem editFieldBranch_pres (c : Callback) (s : UserState) (m2 : StMap)
    (bs : BotState) (o : Output) (hsome : s.tempExpense ≠ Option.none)
    (hm : InvMap m2) :
    ∃ r, editFieldBranch c s m2 bs o = Except.ok r ∧ InvMap r.1.states := by
  unfold editFieldBranch
  repeat' split
  all_goals first
    | exact ⟨_, rfl, hm⟩
    | exact ⟨_, rfl, invMap_setS hm (fun _ => hsome)⟩

theorem editVehicleBranch_pres (c : Callback) (s : UserState) (m2 : StMap)
    (bs : BotState) (o : Output) (hm : InvMap m2) :
    ∃ r, editVehicleBranch c s m2 bs o = Except.ok r ∧ InvMap r.1.states := by
  unfold editVehicleBranch
  split
  · exact ⟨_, rfl, invMap_setS hm (tempInv_of_some rfl)⟩
  · exact ⟨_, rfl, hm⟩

theorem editSaveBranch_pres (env : Env) (c : Callback) (s : UserState)
    (m2 : StMap) (bs : BotState) (o : Output) (hm : InvMap m2) :
    ∃ r, editSaveBranch env c s m2 bs o = Except.ok r ∧ InvMap r.1.states := by
  unfold editSaveBranch
  repeat' split
  all_goals first
    | exact ⟨_, rfl, hm⟩
    | exact ⟨_, rfl, invMap_delS hm⟩

theorem editPickBranch_pres (env : Env) (c : Callback) (s : UserState)
    (m2 : StMap) (bs : BotState) (o : Output) (hm : InvMap m2) :
    ∃ r, editPickBranch env c s m2 bs o = Except.ok r ∧ InvMap r.1.states := by
  unfold editPickBranch
  repeat' split
  all_goals first
    | exact ⟨_, rfl, hm⟩
    | exact ⟨_, rfl, invMap_setS hm (tempInv_of_some rfl)⟩

theorem deletePickBranch_pres (env : Env) (c : Callback) (s : UserState)
    (m2 : StMap) (bs : BotState) (o : Output)
    (hsome : s.tempExpense ≠ Option.none) (hm : InvMap m2) :
    ∃ r, deletePickBranch env c s m2 bs o = Except.ok r ∧ InvMap r.1.states := by
  unfold deletePickBranch
  repeat' split
  all_goals first
    | exact ⟨_, rfl, hm⟩
    | exact ⟨_, rfl, invMap_setS hm (fun _ => hsome)⟩

theorem confirmDeleteBranch_pres (env : Env) (c : Callback) (s : UserState)
    (m2 : StMap) (bs : BotState) (o : Output) (hm : InvMap m2) :
    ∃ r, confirmDeleteBranch env c s m2 bs o = Except.ok r ∧ InvMap r.1.states := by
  unfold confirmDeleteBranch
  repeat' split
  all_goals first
    | exact ⟨_, rfl, hm⟩
    | exact ⟨_, rfl, invMap_delS hm⟩

theorem confirmBranch_pres (c : Callback) (s : UserState) (m2 : StMap)
    (bs : BotState) (o : Output) (hm : InvMap m2) :
    ∃ r, confirmBranch c s m2 bs o = Except.ok r ∧ InvMap r.1.states := by
  unfold confirmBranch
  split
  · exact ⟨_, rfl, invMap_delS hm⟩
  · exact ⟨_, rfl, invMap_delS hm⟩

theorem cbDispatch_pres (env : Env) (c : Callback) (s : UserState)
    (m2 : StMap) (bs : BotState) (o : Output)
    (hsome : s.tempExpense ≠ Option.none) (hm : InvMap m2) :
    ∃ r, cbDispatch env c s m2 bs o = Except.ok r ∧ InvMap r.1.states := by
  unfold cbDispatch
  by_cases h1 : strStartsWith c.data "group_" = true
  · rw [if_pos h1]
    exact groupBranch_pres env c m2 bs o hm
  rw [if_neg h1]
  by_cases h2 : strStartsWith c.data "category_" = true
  · rw [if_pos h2]
    exact categoryBranch_pres env c s m2 bs o hsome hm
  rw [if_neg h2]
  by_cases h3 : strStartsWith c.data "vehicle_" = true
  · rw [if_pos h3]
    exact vehicleBranch_pres env c s m2 bs o hsome hm
  rw [if_neg h3]
  by_cases h4 : strStartsWith c.data "edit_field_" = true
  · rw [if_pos h4]
    exact editFieldBranch_pres c s m2 bs o hsome hm
  rw [if_neg h4]
  by_cases h5 : strStartsWith c.data "edit_vehicle_" = true
  · rw [if_pos h5]
    exact editVehicleBranch_pres c s m2 bs o hm
  rw [if_neg h5]
  by_cases h6 : c.data = "edit_save"
  · rw [if_pos h6]
    exact editSaveBranch_pres env c s m2 bs o hm
  rw [if_neg h6]
  by_cases h7 : c.data = "edit_cancel"
  · rw [if_pos h7]
    exact ⟨_, rfl, invMap_delS hm⟩
  rw [if_neg h7]
  by_cases h8 : strStartsWith c.data "edit_" = true
  · rw [if_pos h8]
    exact editPickBranch_pres env c s m2 bs o hm
  rw [if_neg h8]
  by_cases h9 : strStartsWith c.data "delete_" = true
  · rw [if_pos h9]
    exact deletePickBranch_pres env c s m2 bs o hsome hm
  rw [if_neg h9]
  by_cases h10 : c.data = "confirm_delete"
  · rw [if_pos h10]
    exact confirmDeleteBranch_pres env c s m2 bs o hm
  rw [if_neg h10]
  by_cases h11 : c.data = "back_to_groups"
  · rw [if_pos h11]
    exact ⟨_, rfl, hm⟩
  rw [if_neg h11]
  by_cases h12 : c.data = "back_to_main"
  · rw [if_pos h12]
    exact ⟨_, rfl, hm⟩
  rw [if_neg h12]
  by_cases h13 : strStartsWith c.data "confirm_" = true
  · rw [if_pos h13]
    exact confirmBranch_pres c s m2 bs o hm
  rw [if_neg h13]
  exact ⟨_, rfl, hm⟩

theorem handleCallbackQuery_pres (env : Env) (c : Callback) (bs : BotState)
    (h : InvMap bs.states) :
    ∃ r, handleCallbackQuery env c bs = Except.ok r ∧ InvMap r.1.states := by
  unfold handleCallbackQuery
  exact cbDispatch_pres env c _ _ bs _
    (ensureTempDraft_pres (getOrCreateAt_pres c.chatId env.now h).1
      (getOrCreateAt_pres c.chatId env.now h).2).1
    (ensureTempDraft_pres (getOrCreateAt_pres c.chatId env.now h).1
      (getOrCreateAt_pres c.chatId env.now h).2).2.2

theorem handleUpdateMsg_pres (env : Env) (m : Message) (bs : BotState)
    (h : InvMap bs.states) :
    ∃ r, handleUpdateMsg env m bs = Except.ok r ∧ InvMap r.1.states := by
  unfold handleUpdateMsg
  repeat' split
  all_goals first
    | exact ⟨_, rfl, handleCommand_pres env m _ _ (getOrCreateAt_pres m.chatId env.now h).2⟩
    | exact ⟨_, rfl, (getOrCreateAt_pres m.chatId env.now h).2⟩

theorem stepBot_pres (e : Ev) (bs : BotState) (h : InvMap bs.states) :
    ∃ r, stepBot e bs = Except.ok r ∧ InvMap r.1.states := by
  cases e with
  | msg env m => exact handleMessage_pres env m bs h
  | cb env c => exact handleCallbackQuery_pres env c bs h
  | upd env m => exact handleUpdateMsg_pres env m bs h
  | sweep env => exact ⟨_, rfl, invMap_filter _ h⟩

theorem reachable_invMap {bs : BotState} (h : Reachable bs) : InvMap bs.states := by
  induction h with
  | init => exact invMap_nil
  | step hr hstep ih =>
      rename_i bs0 e bs1 o
      obtain ⟨r, hok, hinv⟩ := stepBot_pres e bs0 ih
      have h2 : r = (bs1, o) := Except.ok.inj (hok.symm.trans hstep)
      rw [h2] at hinv
      exact hinv

/-- From the invariant, processing never panics on a TempExpense nil
dereference. -/
theorem stepBot_no_panic (e : Ev) (bs : BotState) (h : InvMap bs.states) :
    stepBot e bs ≠ Except.error () := by
  obtain ⟨r, hok, _⟩ := stepBot_pres e bs h
  intro hcontr
  rw [hok] at hcontr
  cases hcontr

/-! ### Concrete collaborator environments for evaluations -/

/-- A neutral environment: every storage lookup misses, every parse fails,
the gate lets events through, sends succeed. -/
def emptyEnv : Env :=
  { now := 0, allow := true, sendOk := true,
    parseFloat := fun _ => Option.none,
    parseInt := fun _ => Option.none,
    getCategoryByName := fun _ => Except.ok Option.none,
    getCategoriesByGroup := fun _ => Except.ok [],
    getExpenseByID := fun _ => Except.ok Option.none,
    getUserByTelegramID := fun _ => Except.ok Option.none,
    getOrCreateUserOk := true, createExpenseOk := true,
    updateExpenseOk := true, deleteExpenseOk := true,
    searchByQuery := fun _ _ => Except.ok [],
    getExpensesByTelegramID := fun _ => Except.ok [] }

/-- The engine state used for the numeric-rejection scenario: user 5 is at
StepOdometer with a draft whose Odometer is 123. -/
def bsOdo : BotState :=
  { states := [(5, { step := Step.odometer,
                     tempExpense := Option.some { userId := 5, categoryName := "Petrol", odometer := 123 } })] }

/-- The engine state a processed event produced (the fallback is returned
only on a panic). -/
def resState (x : Except Unit (BotState × Output)) (d : BotState) : BotState :=
  match x with
  | Except.ok p => p.1
  | Except.error _ => d

/-- The output a processed event produced. -/
def resOut (x : Except Unit (BotState × Output)) : Output :=
  match x with
  | Except.ok p => p.2
  | Except.error _ => {}

/-- C1 evaluation: sending "abc" (which does not parse) at StepOdometer
while the re-prompt send succeeds.  The code stores 0 into the draft's
Odometer, advances Step to StepPetrolPrice, and sends BOTH the re-prompt
and the petrol-price prompt, because parseFloatOrReply returns the nil
error of the successful send. -/
theorem c1_parse_failure_advances_step :
    lookupS (resState (stepBot (Ev.msg emptyEnv ⟨5, 5, "abc"⟩) bsOdo) bsOdo).states 5 =
      Option.some { step := Step.petrolPrice,
                    tempExpense := Option.some { userId := 5, categoryName := "Petrol", odometer := 0 } } ∧
    (resOut (stepBot (Ev.msg emptyEnv ⟨5, 5, "abc"⟩) bsOdo)).replies =
      ["Please enter a valid number for the odometer reading.",
       "⛽ Please enter the petrol price per liter:"] := by
  decide

/-- Record used in the snapshot-aliasing evaluation. -/
def expA : Expense := { id := 1, userId := 9, totalPrice := 100 }

/-- C2 evaluation: prepareExpenseSelection stores the same pointers the
live list holds (copy() duplicates the pointer slice, not the records), so
mutating an expense selected through one of those pointers changes what
the stored snapshot dereferences to. -/
theorem c2_selection_shares_pointers :
    prepareSelectionAddrs [0] 10 = Option.some [0] ∧
    heapRead (heapWrite [(0, expA)] 0 { expA with totalPrice := 999 }) 0 =
      Option.some { expA with totalPrice := 999 } ∧
    ({ expA with totalPrice := 999 } : Expense) ≠ expA := by
  decide

/-- A gate-exhausted environment that still resolves the Petrol category. -/
def envGateClosed : Env :=
  { emptyEnv with
    allow := false,
    getCategoryByName := fun n =>
      if n = "Petrol" then Except.ok (Option.some { name := "Petrol", emoji := "", group := "Vehicle" })
      else Except.ok Option.none }

/-- C3 counterexample: with the admission gate exhausted (Allow() would
return false), a callback query still creates the user state, stores the
category and advances Step to StepVehicleType — and the gate was never
consulted on the callback path. -/
theorem c3_callback_bypasses_gate :
    lookupS (resState (stepBot (Ev.cb envGateClosed ⟨1, "category_Petrol"⟩) initialBotState)
        initialBotState).states 1 =
      Option.some { step := Step.vehicleType,
                    tempExpense := Option.some { userId := 1, categoryName := "Petrol" } } ∧
    (resOut (stepBot (Ev.cb envGateClosed ⟨1, "category_Petrol"⟩) initialBotState)).gateConsulted
      = false := by
  decide

/-- C3 amended: a text message consults the gate first and a rejection
short-circuits with the throttle reply and no state change; a callback
query is dispatched without consulting the gate at all — its processing
does not depend on the gate's answer. -/
theorem c3_gate_amended :
    (∀ (env : Env) (m : Message) (bs : BotState), env.allow = false →
      stepBot (Ev.msg env m) bs =
        Except.ok (bs, send { gateConsulted := true } "Too many requests. Please try again later.")) ∧
    (∀ (env : Env) (b : Bool) (c : Callback) (bs : BotState),
      stepBot (Ev.cb { env with allow := b } c) bs = stepBot (Ev.cb env c) bs) := by
  constructor
  · intro env m bs h
    simp [stepBot, handleMessage, h]
  · intro env b c bs
    rfl

/-- Witness for the amended C3 statement at concrete inputs. -/
theorem c3_gate_amended_witness :
    stepBot (Ev.msg { emptyEnv with allow := false } ⟨2, 2, "hola"⟩) initialBotState =
      Except.ok (initialBotState, send { gateConsulted := true } "Too many requests. Please try again later.") ∧
    stepBot (Ev.cb { emptyEnv with allow := true } ⟨2, "zzz"⟩) initialBotState =
      stepBot (Ev.cb emptyEnv ⟨2, "zzz"⟩) initialBotState :=
  ⟨c3_gate_amended.1 { emptyEnv with allow := false } ⟨2, 2, "hola"⟩ initialBotState rfl,
   c3_gate_amended.2 emptyEnv true ⟨2, "zzz"⟩ initialBotState⟩

/-- C4: one sweep removes exactly the states idle strictly longer than the
timeout, keeps every other entry unchanged, is the identity when nothing
is expired, and the configured default timeout is 30 minutes. -/
theorem c4_eviction_sweep (now timeout : Int) (m : StMap) :
    (∀ p, p ∈ cleanupExpiredStates now timeout m ↔
        (p ∈ m ∧ ¬ (now - p.2.lastActivity > timeout))) ∧
    ((∀ p ∈ m, ¬ (now - p.2.lastActivity > timeout)) →
        cleanupExpiredStates now timeout m = m) ∧
    initialBotState.stateTimeout = 30 * 60 := by
  refine ⟨?_, ?_, rfl⟩
  · intro p
    simp [cleanupExpiredStates, List.mem_filter]
  · intro h
    unfold cleanupExpiredStates
    rw [List.filter_eq_self]
    intro p hp
    simpa using h p hp

/-- Witness for C4: a state idle 35 minutes (now = 2100, LastActivity = 0)
is removed, a state idle 10 minutes (LastActivity = 1500) is kept, and a
sweep over only-fresh states changes nothing. -/
theorem c4_eviction_sweep_witness :
    (((1 : Int), ({ step := Step.start, lastActivity := 0 } : UserState)) ∉
        cleanupExpiredStates 2100 1800
          [(1, { step := Step.start, lastActivity := 0 }), (2, { step := Step.start, lastActivity := 1500 })]) ∧
    (((2 : Int), ({ step := Step.start, lastActivity := 1500 } : UserState)) ∈
        cleanupExpiredStates 2100 1800
          [(1, { step := Step.start, lastActivity := 0 }), (2, { step := Step.start, lastActivity := 1500 })]) ∧
    cleanupExpiredStates 2100 1800 [(2, { step := Step.start, lastActivity := 1500 })] =
      [(2, { step := Step.start, lastActivity := 1500 })] := by
  have h := c4_eviction_sweep 2100 1800
    [(1, { step := Step.start, lastActivity := 0 }), (2, { step := Step.start, lastActivity := 1500 })]
  have h2 := c4_eviction_sweep 2100 1800 [(2, { step := Step.start, lastActivity := 1500 })]
  refine ⟨?_, ?_, ?_⟩
  · intro hmem
    exact ((h.1 _).mp hmem).2 (by decide)
  · exact (h.1 _).mpr ⟨by decide, by decide⟩
  · exact h2.2.1 (by decide)

/-- The storage/parse oracle for the scripted add flow. -/
def envAddFlow : Env :=
  { emptyEnv with
    parseFloat := fun t =>
      if t = "50000" then Option.some 50000
      else if t = "96.72" then Option.some (9672/100 : ℚ)
      else if t = "1000" then Option.some 1000
      else Option.none,
    getCategoryByName := fun n =>
      if n = "Petrol" then Except.ok (Option.some { name := "Petrol", emoji := "⛽", group := "Vehicle" })
      else Except.ok Option.none }

/-- The scripted add flow: category, vehicle path, odometer, petrol price,
total price, notes. -/
def addFlowEvents : List Ev :=
  [Ev.cb envAddFlow ⟨1, "category_Petrol"⟩,
   Ev.cb envAddFlow ⟨1, "vehicle_CAR"⟩,
   Ev.msg envAddFlow ⟨1, 1, "50000"⟩,
   Ev.msg envAddFlow ⟨1, 1, "96.72"⟩,
   Ev.msg envAddFlow ⟨1, 1, "1000"⟩,
   Ev.msg envAddFlow ⟨1, 1, "fuel"⟩]

/-- The engine state after a list of events (fallback on panic). -/
def runState (es : List Ev) (bs : BotState) : BotState :=
  match runEvents es bs with
  | Except.ok b => b
  | Except.error _ => bs

/-- C5: the scripted add flow persists exactly one expense carrying the
entered category, odometer, petrol price, total price and notes, and the
user's session state is deleted afterward. -/
theorem c5_add_flow_round_trip :
    runEvents addFlowEvents initialBotState =
      Except.ok { states := [],
                  persisted := [{ categoryName := "Petrol", totalPrice := 1000,
                                  odometer := 50000, petrolPrice := 9672/100,
                                  notes := "fuel", timestamp := 0 }],
                  stateTimeout := 1800 } := by
  rfl

/-! ### Equations for the callback prologue -/

theorem getOrCreateAt_lookup_some {m : StMap} {k : Int} (now : Int)
    {s : UserState} (h : lookupS m k = Option.some s) :
    getOrCreateAt m k now = (s, m) := by
  unfold getOrCreateAt
  rw [h]

theorem getOrCreateAt_lookup_none {m : StMap} {k : Int} (now : Int)
    (h : lookupS m k = Option.none) :
    getOrCreateAt m k now = (newUserState now, setS m k (newUserState now)) := by
  unfold getOrCreateAt
  rw [h]

theorem ensureTempDraft_of_none {s : UserState} {m : StMap} {k : Int}
    (h : s.tempExpense = Option.none) :
    ensureTempDraft (s, m) k =
      ({ s with tempExpense := Option.some (initDraft k) },
       setS m k { s with tempExpense := Option.some (initDraft k) }) := by
  unfold ensureTempDraft
  simp [h]

theorem ensureTempDraft_of_some {s : UserState} {m : StMap} {k : Int}
    (h : s.tempExpense ≠ Option.none) :
    ensureTempDraft (s, m) k = (s, m) := by
  unfold ensureTempDraft
  simp [h]

/-- The session map an unrecognized (or aborted) callback leaves behind:
unchanged but for the universal prologue (lazy state creation and nil
TempExpense initialization). -/
def cbPrologueMap (bs : BotState) (chatId now : Int) : StMap :=
  (ensureTempDraft (getOrCreateAt bs.states chatId now) chatId).2

/-- The environment for the foreign-expense denial evaluation: expense 7
is owned by user-record 99, while Telegram user 3 resolves to user-record
1. -/
def envC6 : Env :=
  { emptyEnv with
    parseInt := fun t => if t = "7" then Option.some 7 else Option.none,
    getExpenseByID := fun i =>
      if i = 7 then Except.ok (Option.some { id := 7, userId := 99 }) else Except.ok Option.none,
    getUserByTelegramID := fun u =>
      if u = 3 then Except.ok (Option.some { id := 1, telegramId := 3 }) else Except.ok Option.none }

/-- User 3 has an idle state with a nil TempExpense. -/
def bsC6 : BotState := { states := [(3, { step := Step.start })] }

/-- C6 counterexample: the ownership mismatch is denied and Step and
DeleteExpense are untouched, but TempExpense is NOT the same after the
callback: the universal prologue initialized the nil TempExpense to an
empty draft before the ownership check ran. -/
theorem c6_tempexpense_mutated_on_denial :
    lookupS (resState (stepBot (Ev.cb envC6 ⟨3, "edit_7"⟩) bsC6) bsC6).states 3 =
      Option.some { step := Step.start, tempExpense := Option.some { userId := 3 } } ∧
    (resOut (stepBot (Ev.cb envC6 ⟨3, "edit_7"⟩) bsC6)).replies =
      ["you can only modify your own expenses"] ∧
    Option.some ({ userId := 3 } : Expense) ≠ (Option.none : Option Expense) := by
  decide

/-- C6 amended: for an edit_<id> or delete_<id> callback naming an expense
whose owning-user id differs from the resolved user's id, the user gets
the denial reply and the transition aborts: the engine state is exactly
the prologue state (Step, DeleteExpense, persisted expenses and every
other user unchanged; TempExpense unchanged unless it was nil, in which
case it is the freshly initialized empty draft). -/
theorem c6_ownership_denial_amended (env : Env) (c : Callback)
    (bs : BotState) (s : UserState) (expId : Int) (exp : Expense) (usr : User)
    (hlook : lookupS bs.states c.chatId = Option.some s)
    (hexp : env.getExpenseByID expId = Except.ok (Option.some exp))
    (husr : env.getUserByTelegramID c.chatId = Except.ok (Option.some usr))
    (hne : exp.userId ≠ usr.id)
    (hG : strStartsWith c.data "group_" = false)
    (hC : strStartsWith c.data "category_" = false)
    (hV : strStartsWith c.data "vehicle_" = false)
    (hEF : strStartsWith c.data "edit_field_" = false)
    (hEV : strStartsWith c.data "edit_vehicle_" = false)
    (hES : c.data ≠ "edit_save")
    (hEC : c.data ≠ "edit_cancel") :
    (strStartsWith c.data "edit_" = true →
     env.parseInt (strDrop c.data 5) = Option.some expId →
     stepBot (Ev.cb env c) bs =
       Except.ok ({ bs with states := cbPrologueMap bs c.chatId env.now },
                  { replies := ["you can only modify your own expenses"],
                    gateConsulted := false })) ∧
    (strStartsWith c.data "edit_" = false →
     strStartsWith c.data "delete_" = true →
     env.parseInt (strDrop c.data 7) = Option.some expId →
     stepBot (Ev.cb env c) bs =
       Except.ok ({ bs with states := cbPrologueMap bs c.chatId env.now },
                  { replies := ["you can only modify your own expenses"],
                    gateConsulted := false })) ∧
    ((ensureTempDraft (getOrCreateAt bs.states c.chatId env.now) c.chatId).1.step = s.step) ∧
    ((ensureTempDraft (getOrCreateAt bs.states c.chatId env.now) c.chatId).1.deleteExpense
      = s.deleteExpense) ∧
    lookupS (cbPrologueMap bs c.chatId env.now) c.chatId =
      Option.some (ensureTempDraft (getOrCreateAt bs.states c.chatId env.now) c.chatId).1 ∧
    (s.tempExpense ≠ Option.none → cbPrologueMap bs c.chatId env.now = bs.states) := by
  have hgo : getOrCreateAt bs.states c.chatId env.now = (s, bs.states) :=
    getOrCreateAt_lookup_some env.now hlook
  refine ⟨?_, ?_, ?_, ?_, ?_, ?_⟩
  · intro hE hparse
    show handleCallbackQuery env c bs = _
    unfold handleCallbackQuery cbDispatch
    rw [if_neg (by simp [hG]), if_neg (by simp [hC]), if_neg (by simp [hV]),
        if_neg (by simp [hEF]), if_neg (by simp [hEV]), if_neg hES, if_neg hEC,
        if_pos hE]
    unfold editPickBranch
    simp only [hparse, hexp]
    unfold checkExpenseOwnership
    simp only [husr]
    rw [if_pos hne]
    rfl
  · intro hE hD hparse
    show handleCallbackQuery env c bs = _
    unfold handleCallbackQuery cbDispatch
    rw [if_neg (by simp [hG]), if_neg (by simp [hC]), if_neg (by simp [hV]),
        if_neg (by simp [hEF]), if_neg (by simp [hEV]), if_neg hES, if_neg hEC,
        if_neg (by simp [hE]), if_pos hD]
    unfold deletePickBranch
    simp only [hparse, hexp]
    unfold checkExpenseOwnership
    simp only [husr]
    rw [if_pos hne]
    rfl
  · rw [hgo]
    by_cases ht : s.tempExpense = Option.none
    · rw [ensureTempDraft_of_none ht]
    · rw [ensureTempDraft_of_some ht]
  · rw [hgo]
    by_cases ht : s.tempExpense = Option.none
    · rw [ensureTempDraft_of_none ht]
    · rw [ensureTempDraft_of_some ht]
  · unfold cbPrologueMap
    rw [hgo]
    by_cases ht : s.tempExpense = Option.none
    · rw [ensureTempDraft_of_none ht]
      exact lookupS_setS_self bs.states c.chatId _
    · rw [ensureTempDraft_of_some ht]
      exact hlook
  · intro ht
    unfold cbPrologueMap
    rw [hgo, ensureTempDraft_of_some ht]

/-- Witness for the amended C6 statement at the concrete denial scenario. -/
theorem c6_ownership_denial_amended_witness :
    stepBot (Ev.cb envC6 ⟨3, "edit_7"⟩) bsC6 =
      Except.ok ({ bsC6 with states := cbPrologueMap bsC6 3 0 },
                 { replies := ["you can only modify your own expenses"],
                   gateConsulted := false }) :=
  (c6_ownership_denial_amended envC6 ⟨3, "edit_7"⟩ bsC6
    { step := Step.start } 7 { id := 7, userId := 99 } { id := 1, telegramId := 3 }
    (by decide) (by rfl) (by rfl) (by decide) (by decide) (by decide) (by decide)
    (by decide) (by decide) (by decide) (by decide)).1 (by decide) (by rfl)

/-- User 1 is waiting for a search query. -/
def bsC7 : BotState := { states := [(1, { step := Step.searchExpense })] }

/-- C7 counterexample: a query whose similarity search returns no matches
leaves Step at StepSearchExpense — the step is NOT cleared to StepNone. -/
theorem c7_no_results_keeps_step :
    lookupS (resState (stepBot (Ev.msg emptyEnv ⟨1, 1, "coffee"⟩) bsC7) bsC7).states 1 =
      Option.some { step := Step.searchExpense } ∧
    Step.searchExpense ≠ Step.none := by
  decide

/-- C7 amended: at StepSearchExpense the step is cleared to StepNone only
when the similarity search runs and returns at least one match (the
results reply is sent); in every other outcome Step remains
StepSearchExpense with an explanatory reply: no matches yields the
no-results reply, a blank (whitespace) query yields the enter-a-query
reply without running the search, and a failed search yields the generic
error reply. -/
theorem c7_search_clears_step_amended (env : Env) (m : Message)
    (bs : BotState) (s : UserState)
    (hlook : lookupS bs.states m.fromId = Option.some s)
    (hstep : s.step = Step.searchExpense)
    (hallow : env.allow = true)
    (hb1 : m.text ≠ "📝 Add Expense") (hb2 : m.text ≠ "📋 List Expenses")
    (hb3 : m.text ≠ "✏️ Edit Expense") (hb4 : m.text ≠ "🗑️ Delete Expense")
    (hb5 : m.text ≠ "📊 Reports") (hb6 : m.text ≠ "📈 Dashboard")
    (hcmd : isCommandText m.text = false) :
    (∀ exps, strTrim m.text ≠ "" →
      env.searchByQuery m.fromId (strTrim m.text) = Except.ok exps → exps ≠ [] →
      stepBot (Ev.msg env m) bs =
        Except.ok ({ bs with states := setS (setS bs.states m.fromId (updateActivity s env.now)) m.fromId { updateActivity s env.now with step := Step.none } }, send { gateConsulted := true } ("🔍 Search Results for: " ++ strTrim m.text)) ∧
      lookupS (setS (setS bs.states m.fromId (updateActivity s env.now)) m.fromId { updateActivity s env.now with step := Step.none }) m.fromId =
        Option.some { updateActivity s env.now with step := Step.none }) ∧
    (∀ exps, strTrim m.text ≠ "" →
      env.searchByQuery m.fromId (strTrim m.text) = Except.ok exps → exps = [] →
      stepBot (Ev.msg env m) bs =
        Except.ok ({ bs with states := setS bs.states m.fromId (updateActivity s env.now) }, send { gateConsulted := true } ("No expenses found matching: " ++ strTrim m.text)) ∧
      lookupS (setS bs.states m.fromId (updateActivity s env.now)) m.fromId =
        Option.some (updateActivity s env.now) ∧
      (updateActivity s env.now).step = Step.searchExpense) ∧
    (strTrim m.text = "" →
      stepBot (Ev.msg env m) bs =
        Except.ok ({ bs with states := setS bs.states m.fromId (updateActivity s env.now) }, send { gateConsulted := true } "Please enter a search query.") ∧
      lookupS (setS bs.states m.fromId (updateActivity s env.now)) m.fromId =
        Option.some (updateActivity s env.now) ∧
      (updateActivity s env.now).step = Step.searchExpense) ∧
    (strTrim m.text ≠ "" →
      env.searchByQuery m.fromId (strTrim m.text) = Except.error () →
      stepBot (Ev.msg env m) bs =
        Except.ok ({ bs with states := setS bs.states m.fromId (updateActivity s env.now) }, sendErr { gateConsulted := true }) ∧
      lookupS (setS bs.states m.fromId (updateActivity s env.now)) m.fromId =
        Option.some (updateActivity s env.now) ∧
      (updateActivity s env.now).step = Step.searchExpense) := by
  have hng : ¬ (¬ env.allow = true) := by simp [hallow]
  have hgo : getOrCreateAt bs.states m.fromId env.now = (s, bs.states) :=
    getOrCreateAt_lookup_some env.now hlook
  have hstep1 : (updateActivity s env.now).step = Step.searchExpense := hstep
  have hnotes : ¬ ((updateActivity s env.now).step = Step.notes ∧ m.text = "/skip") := by
    intro hcontr
    rw [hstep1] at hcontr
    cases hcontr.1
  have hnav : stepBot (Ev.msg env m) bs =
      Except.ok (handleSearchQuery env m { bs with states := setS bs.states m.fromId (updateActivity s env.now) } { gateConsulted := true }) := by
    show handleMessage env m bs = _
    unfold handleMessage
    rw [if_neg hng, hgo]
    unfold msgDispatch
    rw [if_neg hnotes, if_neg (by simp [hcmd])]
    unfold handleState
    rw [if_neg hb1, if_neg hb2, if_neg hb3, if_neg hb4, if_neg hb5, if_neg hb6,
        if_pos hstep1]
  refine ⟨?_, ?_, ?_, ?_⟩
  · intro exps hq hsearch hne
    refine ⟨?_, lookupS_setS_self _ _ _⟩
    rw [hnav]
    unfold handleSearchQuery
    rw [if_neg hq]
    simp only [hsearch]
    rw [if_neg hne]
    simp only [lookupS_setS_self]
  · intro exps hq hsearch he
    refine ⟨?_, lookupS_setS_self _ _ _, hstep1⟩
    rw [hnav]
    unfold handleSearchQuery
    rw [if_neg hq]
    simp only [hsearch]
    rw [if_pos he]
  · intro hq
    refine ⟨?_, lookupS_setS_self _ _ _, hstep1⟩
    rw [hnav]
    unfold handleSearchQuery
    rw [if_pos hq]
  · intro hq hsearch
    refine ⟨?_, lookupS_setS_self _ _ _, hstep1⟩
    rw [hnav]
    unfold handleSearchQuery
    rw [if_neg hq]
    simp only [hsearch]

/-- A search oracle that finds one match. -/
def envC7 : Env := { emptyEnv with searchByQuery := fun _ _ => Except.ok [expA] }

/-- Witness for the amended C7 statement: a one-match search clears the
step to StepNone with the results reply. -/
theorem c7_search_clears_step_amended_witness :
    stepBot (Ev.msg envC7 ⟨1, 1, "coffee"⟩) bsC7 =
      Except.ok ({ bsC7 with states := setS (setS bsC7.states 1 (updateActivity { step := Step.searchExpense } 0)) 1 { updateActivity { step := Step.searchExpense } 0 with step := Step.none } }, send { gateConsulted := true } ("🔍 Search Results for: " ++ strTrim "coffee")) :=
  ((c7_search_clears_step_amended envC7 ⟨1, 1, "coffee"⟩ bsC7 { step := Step.searchExpense }
    (by decide) rfl rfl (by decide) (by decide) (by decide) (by decide) (by decide)
    (by decide) (by decide)).1 [expA] (by decide) (by rfl) (by decide)).1

/-- C8 counterexample: an unrecognized payload from a user with NO stored
state does create a UserState (with a freshly initialized TempExpense),
against the claim that no UserState is created. -/
theorem c8_unrecognized_creates_state :
    lookupS (resState (stepBot (Ev.cb emptyEnv ⟨7, "zzz"⟩) initialBotState) initialBotState).states 7 =
      Option.some { step := Step.start, tempExpense := Option.some { userId := 7 } } ∧
    (resOut (stepBot (Ev.cb emptyEnv ⟨7, "zzz"⟩) initialBotState)).replies =
      ["Invalid selection. Please try again."] := by
  decide

/-- C8 amended: an unrecognized payload gets the invalid-selection reply
and the engine state is exactly the universal callback prologue: nothing
changes for a user whose state already had a draft; a nil TempExpense is
initialized; a missing UserState is created (Step=Start, fresh draft). -/
theorem c8_unrecognized_callback_amended (env : Env) (c : Callback) (bs : BotState)
    (hG : strStartsWith c.data "group_" = false)
    (hC : strStartsWith c.data "category_" = false)
    (hV : strStartsWith c.data "vehicle_" = false)
    (hEF : strStartsWith c.data "edit_field_" = false)
    (hEV : strStartsWith c.data "edit_vehicle_" = false)
    (hES : c.data ≠ "edit_save")
    (hEC : c.data ≠ "edit_cancel")
    (hE : strStartsWith c.data "edit_" = false)
    (hD : strStartsWith c.data "delete_" = false)
    (hCD : c.data ≠ "confirm_delete")
    (hBG : c.data ≠ "back_to_groups")
    (hBM : c.data ≠ "back_to_main")
    (hCf : strStartsWith c.data "confirm_" = false) :
    stepBot (Ev.cb env c) bs =
      Except.ok ({ bs with states := cbPrologueMap bs c.chatId env.now },
                 { replies := ["Invalid selection. Please try again."],
                   gateConsulted := false }) ∧
    (∀ s, lookupS bs.states c.chatId = Option.some s → s.tempExpense ≠ Option.none →
        cbPrologueMap bs c.chatId env.now = bs.states) ∧
    (∀ s, lookupS bs.states c.chatId = Option.some s → s.tempExpense = Option.none →
        cbPrologueMap bs c.chatId env.now =
          setS bs.states c.chatId { s with tempExpense := Option.some (initDraft c.chatId) }) ∧
    (lookupS bs.states c.chatId = Option.none →
        lookupS (cbPrologueMap bs c.chatId env.now) c.chatId =
          Option.some { newUserState env.now with tempExpense := Option.some (initDraft c.chatId) }) := by
  refine ⟨?_, ?_, ?_, ?_⟩
  · show handleCallbackQuery env c bs = _
    unfold handleCallbackQuery cbDispatch
    rw [if_neg (by simp [hG]), if_neg (by simp [hC]), if_neg (by simp [hV]),
        if_neg (by simp [hEF]), if_neg (by simp [hEV]), if_neg hES, if_neg hEC,
        if_neg (by simp [hE]), if_neg (by simp [hD]), if_neg hCD, if_neg hBG,
        if_neg hBM, if_neg (by simp [hCf])]
    rfl
  · intro s hl ht
    unfold cbPrologueMap
    rw [getOrCreateAt_lookup_some env.now hl, ensureTempDraft_of_some ht]
  · intro s hl ht
    unfold cbPrologueMap
    rw [getOrCreateAt_lookup_some env.now hl, ensureTempDraft_of_none ht]
  · intro hl
    unfold cbPrologueMap
    rw [getOrCreateAt_lookup_none env.now hl, ensureTempDraft_of_none rfl]
    exact lookupS_setS_self _ _ _

/-- Witness for the amended C8 statement at a concrete unknown payload. -/
theorem c8_unrecognized_callback_amended_witness :
    stepBot (Ev.cb emptyEnv ⟨7, "zzz"⟩) initialBotState =
      Except.ok ({ initialBotState with states := cbPrologueMap initialBotState 7 0 },
                 { replies := ["Invalid selection. Please try again."],
                   gateConsulted := false }) :=
  (c8_unrecognized_callback_amended emptyEnv ⟨7, "zzz"⟩ initialBotState
    (by decide) (by decide) (by decide) (by decide) (by decide) (by decide) (by decide)
    (by decide) (by decide) (by decide) (by decide) (by decide) (by decide)).1

/-- C9: (i) in every reachable engine state, a stored user state whose
Step is an add/edit sub-step has a non-nil TempExpense, so (ii) processing
any further event never hits the TempExpense nil-dereference panic; and
TempExpense is nil once the flow ends because the whole state is deleted:
(iii) /cancel deletes the session entry, and (iv) a successful Notes-step
completion deletes the session entry (so no TempExpense survives the
flow). -/
theorem c9_tempexpense_invariant (bs : BotState) (h : Reachable bs) :
    (∀ u s, lookupS bs.states u = Option.some s →
        isAddEditSubStep s.step = true → s.tempExpense ≠ Option.none) ∧
    (∀ e, stepBot e bs ≠ Except.error ()) ∧
    (∀ (env : Env) (m : Message) (bs2 : BotState) (o : Output),
        commandOf m.text = "cancel" →
        (handleCommand env m bs2 o).1.states = delS bs2.states m.chatId) ∧
    (∀ (env : Env) (m : Message) (s : UserState) (e0 : Expense) (bs2 : BotState)
        (o : Output) (cat : Category),
        s.tempExpense = Option.some e0 →
        env.getOrCreateUserOk = true →
        env.getCategoryByName (notesDraft e0 m.text env.now m.fromId).categoryName =
          Except.ok (Option.some cat) →
        env.createExpenseOk = true →
        notesStep env m s bs2 o =
          Except.ok (notesFinal env m s e0 bs2, send o "✅ Expense added successfully!") ∧
        lookupS (notesFinal env m s e0 bs2).states m.chatId = Option.none) := by
  refine ⟨?_, ?_, ?_, ?_⟩
  · intro u s hl hsub
    exact invMap_lookup (reachable_invMap h) hl hsub
  · intro e
    exact stepBot_no_panic e bs (reachable_invMap h)
  · intro env m bs2 o hcmd
    simp [handleCommand, hcmd]
  · intro env m s e0 bs2 o cat hTemp hu hcat hc
    constructor
    · unfold notesStep
      rw [hTemp]
      simp only [hu, hcat, hc]
      rfl
    · exact lookupS_delS_self _ _

/-- Witness for C9 at the initial engine state and a concrete completion
and cancellation. -/
theorem c9_tempexpense_invariant_witness :
    stepBot (Ev.sweep emptyEnv) initialBotState ≠ Except.error () ∧
    (handleCommand emptyEnv ⟨4, 4, "/cancel"⟩
        { states := [(4, { step := Step.start })] } {}).1.states =
      delS [(4, { step := Step.start })] 4 ∧
    lookupS (notesFinal envAddFlow ⟨1, 1, "fuel"⟩
        { step := Step.notes, tempExpense := Option.some { userId := 1, categoryName := "Petrol" } }
        { userId := 1, categoryName := "Petrol" }
        { states := [(1, { step := Step.notes })] }).states 1 = Option.none := by
  have h := c9_tempexpense_invariant initialBotState Reachable.init
  refine ⟨h.2.1 (Ev.sweep emptyEnv), ?_, ?_⟩
  · exact h.2.2.1 emptyEnv ⟨4, 4, "/cancel"⟩ _ {} (by decide)
  · exact (h.2.2.2 envAddFlow ⟨1, 1, "fuel"⟩
      { step := Step.notes, tempExpense := Option.some { userId := 1, categoryName := "Petrol" } }
      { userId := 1, categoryName := "Petrol" }
      { states := [(1, { step := Step.notes })] } {} { name := "Petrol", emoji := "⛽", group := "Vehicle" }
      rfl rfl (by rfl) rfl).2

/-- C10: at the Notes step, the expense handed to CreateExpense is built
only from the draft's CategoryName, TotalPrice, Odometer, PetrolPrice and
Notes plus a fresh timestamp; in particular its VehicleType is NULL even
when the draft carries the vehicle type the user selected. -/
theorem c10_vehicle_type_not_persisted (env : Env) (m : Message)
    (s : UserState) (e0 : Expense) (vt : String) (bs : BotState) (o : Output)
    (cat : Category)
    (hTemp : s.tempExpense = Option.some e0)
    (hvt : e0.vehicleType = Option.some vt)
    (hu : env.getOrCreateUserOk = true)
    (hcat : env.getCategoryByName (notesDraft e0 m.text env.now m.fromId).categoryName =
      Except.ok (Option.some cat))
    (hc : env.createExpenseOk = true) :
    notesStep env m s bs o =
      Except.ok (notesFinal env m s e0 bs, send o "✅ Expense added successfully!") ∧
    (notesFinal env m s e0 bs).persisted =
      bs.persisted ++ [buildExpense (notesDraft e0 m.text env.now m.fromId) env.now] ∧
    (buildExpense (notesDraft e0 m.text env.now m.fromId) env.now).vehicleType = Option.none ∧
    (buildExpense (notesDraft e0 m.text env.now m.fromId) env.now).categoryName = e0.categoryName ∧
    (buildExpense (notesDraft e0 m.text env.now m.fromId) env.now).odometer = e0.odometer ∧
    (buildExpense (notesDraft e0 m.text env.now m.fromId) env.now).petrolPrice = e0.petrolPrice ∧
    (buildExpense (notesDraft e0 m.text env.now m.fromId) env.now).totalPrice = e0.totalPrice ∧
    (buildExpense (notesDraft e0 m.text env.now m.fromId) env.now).timestamp = env.now ∧
    e0.vehicleType ≠ (buildExpense (notesDraft e0 m.text env.now m.fromId) env.now).vehicleType := by
  refine ⟨?_, rfl, rfl, ?_, ?_, ?_, ?_, rfl, ?_⟩
  · unfold notesStep
    rw [hTemp]
    simp only [hu, hcat, hc]
    rfl
  · unfold buildExpense notesDraft
    split <;> rfl
  · unfold buildExpense notesDraft
    split <;> rfl
  · unfold buildExpense notesDraft
    split <;> rfl
  · unfold buildExpense notesDraft
    split <;> rfl
  · rw [hvt]
    simp [buildExpense]

/-- Witness for C10 at a concrete draft carrying VehicleType CAR. -/
theorem c10_vehicle_type_not_persisted_witness :
    (buildExpense (notesDraft { userId := 1, categoryName := "Petrol", vehicleType := Option.some "CAR" } "fuel" 0 1) 0).vehicleType = Option.none :=
  (c10_vehicle_type_not_persisted envAddFlow ⟨1, 1, "fuel"⟩
    { step := Step.notes, tempExpense := Option.some { userId := 1, categoryName := "Petrol", vehicleType := Option.some "CAR" } }
    { userId := 1, categoryName := "Petrol", vehicleType := Option.some "CAR" }
    "CAR" initialBotState {} { name := "Petrol", emoji := "⛽", group := "Vehicle" }
    rfl rfl rfl (by rfl) rfl).2.2.1
